import Mathlib

/-!
# USB CDC function driver (`usb_gecko/src/cdc.c`)

A shallow embedding of the CDC driver: the driver's static variables become an
explicit state record, every call into the USB device stack or the RTT log
becomes an entry of an effect trace, and each C function becomes a pure
function from the state (and its arguments) to a return value, the next state
and the effects it issued, in program order.
-/

namespace CDC

/-! ## Types and constants of the USB device stack -/

/-- Modelled from the spec: the stack header `em_usb.h` declaring
`USB_Status_TypeDef` is not among the sources. The driver only compares a
status with `USB_STATUS_OK` and returns the three codes OK, REQ_ERR and
REQ_UNHANDLED, so the enumeration is kept abstract: one constructor per code
of the stack, their numeric values left out. -/
inductive USB_Status_TypeDef
  | USB_STATUS_OK
  | USB_STATUS_REQ_ERR
  | USB_STATUS_EP_BUSY
  | USB_STATUS_REQ_UNHANDLED
  | USB_STATUS_ILLEGAL
  | USB_STATUS_EP_STALLED
  | USB_STATUS_EP_ABORTED
  | USB_STATUS_EP_ERROR
  | USB_STATUS_EP_NAK
  | USB_STATUS_DEVICE_UNCONFIGURED
  | USB_STATUS_DEVICE_SUSPENDED
  | USB_STATUS_DEVICE_RESET
  | USB_STATUS_TIMEOUT
  | USB_STATUS_DEVICE_REMOVED
  | USB_STATUS_HC_BUSY
  | USB_STATUS_DEVICE_MALFUNCTION
  | USB_STATUS_PORT_OVERCURRENT
  deriving DecidableEq, Repr

export USB_Status_TypeDef (USB_STATUS_OK USB_STATUS_REQ_ERR USB_STATUS_REQ_UNHANDLED)

/-- Modelled from the spec: the device states of the stack (`USBD_State_TypeDef`
of `em_usb.h`, not among the sources), kept abstract. -/
inductive USBD_State_TypeDef
  | USBD_STATE_NONE
  | USBD_STATE_ATTACHED
  | USBD_STATE_POWERED
  | USBD_STATE_DEFAULT
  | USBD_STATE_ADDRESSED
  | USBD_STATE_CONFIGURED
  | USBD_STATE_SUSPENDED
  | USBD_STATE_LASTMARKER
  deriving DecidableEq, Repr

export USBD_State_TypeDef (USBD_STATE_CONFIGURED USBD_STATE_SUSPENDED)

/-- Modelled from the spec: the setup packet of the stack (`USB_Setup_TypeDef`,
not among the sources), with the seven fields the driver reads. `Recipient`,
`Type` and `Direction` are bit-fields of 5, 2 and 1 bits, `bRequest` is a byte
and the three `w` fields are 16-bit words. The field `Type` is spelt `Type_`,
`Type` being reserved. -/
structure USB_Setup_TypeDef where
  Recipient : Nat
  Type_     : Nat
  Direction : Nat
  bRequest  : Nat
  wValue    : Nat
  wIndex    : Nat
  wLength   : Nat
  deriving DecidableEq, Repr

/-- The field widths of a setup packet. -/
def USB_Setup_TypeDef.InRange (s : USB_Setup_TypeDef) : Prop :=
  s.Recipient < 32 ∧ s.Type_ < 4 ∧ s.Direction < 2 ∧ s.bRequest < 256 ∧
    s.wValue < 65536 ∧ s.wIndex < 65536 ∧ s.wLength < 65536

instance (s : USB_Setup_TypeDef) : Decidable s.InRange := by
  unfold USB_Setup_TypeDef.InRange; infer_instance

/-- Modelled from the spec: request type Class (USB 2.0, table 9-2). -/
def USB_SETUP_TYPE_CLASS : Nat := 1
/-- Modelled from the spec: recipient Interface (USB 2.0, table 9-2). -/
def USB_SETUP_RECIPIENT_INTERFACE : Nat := 1
/-- Modelled from the spec: direction device-to-host. -/
def USB_SETUP_DIR_IN : Nat := 1
/-- Modelled from the spec: direction host-to-device. -/
def USB_SETUP_DIR_OUT : Nat := 0
/-- Modelled from the spec: CDC request code SET_LINE_CODING. -/
def USB_CDC_SETLINECODING : Nat := 0x20
/-- Modelled from the spec: CDC request code GET_LINE_CODING. -/
def USB_CDC_GETLINECODING : Nat := 0x21
/-- Modelled from the spec: CDC request code SET_CONTROL_LINE_STATE. -/
def USB_CDC_SETCTRLLINESTATE : Nat := 0x22
/-- Modelled from the spec: maximum packet size of a full-speed bulk endpoint,
the capacity of the receive buffer. -/
def USB_FS_BULK_EP_MAXSIZE : Nat := 64

/-! ## Configuration (`usbconfig.h`) and buffer sizes (`cdc.c`) -/

def CDC_CTRL_INTERFACE_NO : Nat := 0
def CDC_DATA_INTERFACE_NO : Nat := 1
def CDC_EP_DATA_OUT : Nat := 0x01
def CDC_EP_DATA_IN : Nat := 0x81
def CDC_EP_NOTIFY : Nat := 0x82

def CDC_BULK_EP_SIZE : Nat := USB_FS_BULK_EP_MAXSIZE
def CDC_USB_RX_BUF_SIZ : Nat := CDC_BULK_EP_SIZE
def CDC_USB_TX_BUF_SIZ : Nat := 127

/-! ## The line-coding record -/

/-- The packed record `cdcLineCoding_TypeDef`: a 32-bit baud rate and four
bytes. -/
structure cdcLineCoding_TypeDef where
  dwDTERate   : Nat
  bCharFormat : Nat
  bParityType : Nat
  bDataBits   : Nat
  dummy       : Nat
  deriving DecidableEq, Repr

/-- The field widths of the record. -/
def cdcLineCoding_TypeDef.InRange (r : cdcLineCoding_TypeDef) : Prop :=
  r.dwDTERate < 4294967296 ∧ r.bCharFormat < 256 ∧ r.bParityType < 256 ∧
    r.bDataBits < 256 ∧ r.dummy < 256

instance (r : cdcLineCoding_TypeDef) : Decidable r.InRange := by
  unfold cdcLineCoding_TypeDef.InRange; infer_instance

/-- The eight bytes of the record in memory: the structure is packed and the
target is little-endian. -/
def cdcLineCoding_TypeDef.toBytes (r : cdcLineCoding_TypeDef) : List Nat :=
  [r.dwDTERate % 256, r.dwDTERate / 256 % 256, r.dwDTERate / 65536 % 256,
   r.dwDTERate / 16777216 % 256,
   r.bCharFormat % 256, r.bParityType % 256, r.bDataBits % 256, r.dummy % 256]

/-- The record read back from its bytes in memory (a missing byte reads 0). -/
def cdcLineCoding_TypeDef.ofBytes (bs : List Nat) : cdcLineCoding_TypeDef :=
  { dwDTERate   := bs.getD 0 0 % 256 + 256 * (bs.getD 1 0 % 256)
                     + 65536 * (bs.getD 2 0 % 256) + 16777216 * (bs.getD 3 0 % 256)
    bCharFormat := bs.getD 4 0 % 256
    bParityType := bs.getD 5 0 % 256
    bDataBits   := bs.getD 6 0 % 256
    dummy       := bs.getD 7 0 % 256 }

/-! ## Driver state and effects -/

/-- The completion callbacks the driver hands to the stack. -/
inductive USB_XferCompleteCb_TypeDef
  | NULL
  | UsbDataReceived_from_ISR
  | UsbDataTransmitted_from_ISR
  | LineCodingReceived_from_ISR
  deriving DecidableEq, Repr

/-- The buffers the driver hands to the stack: its two static buffers, or an
address inside the caller's string. -/
inductive BufferRef
  | cdcLineCoding
  | _rx_buffer
  | addr (p : Nat)
  deriving DecidableEq, Repr

/-- A call the driver makes into the stack or the RTT log, with its
arguments. -/
inductive Effect
  | USBD_Write (epAddr : Nat) (data : BufferRef) (byteCount : Nat)
      (callback : USB_XferCompleteCb_TypeDef)
  | USBD_Read (epAddr : Nat) (data : BufferRef) (byteCount : Nat)
      (callback : USB_XferCompleteCb_TypeDef)
  | SEGGER_RTT_Write (bufferIndex : Nat) (bytes : List Nat) (numBytes : Nat)
  | SEGGER_RTT_printf (bufferIndex : Nat) (oldState newState : USBD_State_TypeDef)
  deriving DecidableEq, Repr

/-- The static variables of `cdc.c`. -/
structure State where
  cdcLineCoding  : cdcLineCoding_TypeDef
  _rx_buffer     : List Nat
  _tx_buffer_ptr : Nat
  _bytes_to_send : Nat
  deriving DecidableEq, Repr

/-- The initial value of the statics: the record initialiser of `cdc.c`, the
other statics zero-initialised. -/
def State.init : State :=
  { cdcLineCoding  := { dwDTERate := 115200, bCharFormat := 0, bParityType := 0,
                        bDataBits := 8, dummy := 0 }
    _rx_buffer     := List.replicate CDC_USB_RX_BUF_SIZ 0
    _tx_buffer_ptr := 0
    _bytes_to_send := 0 }

/-- What a function of the driver produces: its return value, the statics
afterwards and the calls it made, first call first. -/
structure Outcome (α : Type) where
  retVal  : α
  state   : State
  effects : List Effect
  deriving DecidableEq, Repr

/-! ## USART frame codes

The frame-register codes come from the device header, which is not among the
sources. The source ORs them into the local `frame`, whose only use is
commented out: no result of the driver depends on their values. -/

/-- Modelled from the spec: frame code for 5 data bits. -/
def USART_FRAME_DATABITS_FIVE : Nat := 0x2
/-- Modelled from the spec: frame code for 6 data bits. -/
def USART_FRAME_DATABITS_SIX : Nat := 0x3
/-- Modelled from the spec: frame code for 7 data bits. -/
def USART_FRAME_DATABITS_SEVEN : Nat := 0x4
/-- Modelled from the spec: frame code for 8 data bits. -/
def USART_FRAME_DATABITS_EIGHT : Nat := 0x5
/-- Modelled from the spec: frame code for 16 data bits. -/
def USART_FRAME_DATABITS_SIXTEEN : Nat := 0xD
/-- Modelled from the spec: frame code for no parity. -/
def USART_FRAME_PARITY_NONE : Nat := 0x0
/-- Modelled from the spec: frame code for even parity. -/
def USART_FRAME_PARITY_EVEN : Nat := 0x200
/-- Modelled from the spec: frame code for odd parity. -/
def USART_FRAME_PARITY_ODD : Nat := 0x300
/-- Modelled from the spec: frame code for 1 stop bit. -/
def USART_FRAME_STOPBITS_ONE : Nat := 0x1000
/-- Modelled from the spec: frame code for 1.5 stop bits. -/
def USART_FRAME_STOPBITS_ONEANDAHALF : Nat := 0x2000
/-- Modelled from the spec: frame code for 2 stop bits. -/
def USART_FRAME_STOPBITS_TWO : Nat := 0x3000

/-! ## The driver -/

/-- The function `CDC_SetupCmd`: the class requests GET_LINE_CODING,
SET_LINE_CODING and SET_CONTROL_LINE_STATE; `retVal` starts as
REQ_UNHANDLED and the `switch` has no default case. -/
def CDC_SetupCmd (st : State) (setup : USB_Setup_TypeDef) : Outcome USB_Status_TypeDef :=
  let retVal := USB_STATUS_REQ_UNHANDLED
  if setup.Type_ = USB_SETUP_TYPE_CLASS ∧
      setup.Recipient = USB_SETUP_RECIPIENT_INTERFACE then
    if setup.bRequest = USB_CDC_GETLINECODING then
      if setup.wValue = 0 ∧ setup.wIndex = CDC_CTRL_INTERFACE_NO ∧
          setup.wLength = 7 ∧ setup.Direction = USB_SETUP_DIR_IN then
        -- Send current settings to USB host.
        ⟨USB_STATUS_OK, st, [Effect.USBD_Write 0 BufferRef.cdcLineCoding 7
            USB_XferCompleteCb_TypeDef.NULL]⟩
      else ⟨retVal, st, []⟩
    else if setup.bRequest = USB_CDC_SETLINECODING then
      if setup.wValue = 0 ∧ setup.wIndex = CDC_CTRL_INTERFACE_NO ∧
          setup.wLength = 7 ∧ setup.Direction ≠ USB_SETUP_DIR_IN then
        -- Get new settings from USB host.
        ⟨USB_STATUS_OK, st, [Effect.USBD_Read 0 BufferRef.cdcLineCoding 7
            USB_XferCompleteCb_TypeDef.LineCodingReceived_from_ISR]⟩
      else ⟨retVal, st, []⟩
    else if setup.bRequest = USB_CDC_SETCTRLLINESTATE then
      if setup.wIndex = CDC_CTRL_INTERFACE_NO ∧ setup.wLength = 0 then
        -- Do nothing.
        ⟨USB_STATUS_OK, st, []⟩
      else ⟨retVal, st, []⟩
    else ⟨retVal, st, []⟩
  else ⟨retVal, st, []⟩

/-- The function `CDC_StateChangeEvent`: logs the two states, then starts
reception when the new state is Configured; the two other branches are empty
in the source. -/
def CDC_StateChangeEvent (st : State) (oldState newState : USBD_State_TypeDef) :
    Outcome Unit :=
  let log := Effect.SEGGER_RTT_printf 0 oldState newState
  if newState = USBD_STATE_CONFIGURED then
    ⟨(), st, [log, Effect.USBD_Read CDC_EP_DATA_OUT BufferRef._rx_buffer
        CDC_USB_RX_BUF_SIZ USB_XferCompleteCb_TypeDef.UsbDataReceived_from_ISR]⟩
  else if oldState = USBD_STATE_CONFIGURED ∧ newState ≠ USBD_STATE_SUSPENDED then
    ⟨(), st, [log]⟩
  else if newState = USBD_STATE_SUSPENDED then
    ⟨(), st, [log]⟩
  else ⟨(), st, [log]⟩

/-- The function `UsbDataReceived_from_ISR`: hands the received bytes to the RTT
log, then starts a new receive transfer. -/
def UsbDataReceived_from_ISR (st : State) (status : USB_Status_TypeDef)
    (rx_count remaining_count : Nat) : Outcome USB_Status_TypeDef :=
  let _ := remaining_count
  if status = USB_STATUS_OK ∧ rx_count > 0 then
    ⟨USB_STATUS_OK, st,
      [Effect.SEGGER_RTT_Write 0 (st._rx_buffer.take rx_count) rx_count,
       Effect.USBD_Read CDC_EP_DATA_OUT BufferRef._rx_buffer CDC_USB_RX_BUF_SIZ
         USB_XferCompleteCb_TypeDef.UsbDataReceived_from_ISR]⟩
  else ⟨USB_STATUS_OK, st, []⟩

/-- The function `UsbDataTransmitted_from_ISR`: `_bytes_to_send` is a `uint32_t`,
so the subtraction is modulo 2^32; `_tx_buffer_ptr` is an address. -/
def UsbDataTransmitted_from_ISR (st : State) (status : USB_Status_TypeDef)
    (xferred remaining : Nat) : Outcome USB_Status_TypeDef :=
  let _ := remaining
  if status = USB_STATUS_OK then
    let bytes := (st._bytes_to_send + 4294967296 - xferred % 4294967296) % 4294967296
    let ptr := st._tx_buffer_ptr + xferred
    let st1 := { st with _bytes_to_send := bytes, _tx_buffer_ptr := ptr }
    ⟨USB_STATUS_OK, st1,
      [Effect.USBD_Write CDC_EP_DATA_IN (BufferRef.addr ptr) bytes
         USB_XferCompleteCb_TypeDef.UsbDataTransmitted_from_ISR]⟩
  else ⟨USB_STATUS_OK, st, []⟩

/-- The data-bits check of `LineCodingReceived_from_ISR`: the frame with the
code of the width ORed in, or `none` where the source returns REQ_ERR. -/
def checkDataBits (bDataBits frame : Nat) : Option Nat :=
  if bDataBits = 5 then some (frame ||| USART_FRAME_DATABITS_FIVE)
  else if bDataBits = 6 then some (frame ||| USART_FRAME_DATABITS_SIX)
  else if bDataBits = 7 then some (frame ||| USART_FRAME_DATABITS_SEVEN)
  else if bDataBits = 8 then some (frame ||| USART_FRAME_DATABITS_EIGHT)
  else if bDataBits = 16 then some (frame ||| USART_FRAME_DATABITS_SIXTEEN)
  else none

/-- The parity check of `LineCodingReceived_from_ISR`: Mark (3), Space (4) and
every other value return REQ_ERR in the source. -/
def checkParityType (bParityType frame : Nat) : Option Nat :=
  if bParityType = 0 then some (frame ||| USART_FRAME_PARITY_NONE)
  else if bParityType = 1 then some (frame ||| USART_FRAME_PARITY_ODD)
  else if bParityType = 2 then some (frame ||| USART_FRAME_PARITY_EVEN)
  else if bParityType = 3 then none
  else if bParityType = 4 then none
  else none

/-- The stop-bits check of `LineCodingReceived_from_ISR`. -/
def checkCharFormat (bCharFormat frame : Nat) : Option Nat :=
  if bCharFormat = 0 then some (frame ||| USART_FRAME_STOPBITS_ONE)
  else if bCharFormat = 1 then some (frame ||| USART_FRAME_STOPBITS_ONEANDAHALF)
  else if bCharFormat = 2 then some (frame ||| USART_FRAME_STOPBITS_TWO)
  else none

/-- The function `LineCodingReceived_from_ISR`, the completion callback of the
SET_LINE_CODING data stage: the three checks run in the order data bits,
parity, stop bits, each returning REQ_ERR at once when it fails. The frame
computed is dropped (the lines programming the UART are commented out). -/
def LineCodingReceived_from_ISR (st : State) (status : USB_Status_TypeDef)
    (xferred remaining : Nat) : Outcome USB_Status_TypeDef :=
  let frame : Nat := 0
  let _ := remaining
  if status = USB_STATUS_OK ∧ xferred = 7 then
    match checkDataBits st.cdcLineCoding.bDataBits frame with
    | none => ⟨USB_STATUS_REQ_ERR, st, []⟩
    | some frame =>
      match checkParityType st.cdcLineCoding.bParityType frame with
      | none => ⟨USB_STATUS_REQ_ERR, st, []⟩
      | some frame =>
        match checkCharFormat st.cdcLineCoding.bCharFormat frame with
        | none => ⟨USB_STATUS_REQ_ERR, st, []⟩
        | some _ => ⟨USB_STATUS_OK, st, []⟩
  else ⟨USB_STATUS_REQ_ERR, st, []⟩

/-- The C library's `strlen`: the number of bytes before the first zero byte. -/
def strlen (s : List Nat) : Nat :=
  (s.takeWhile (fun c => c != 0)).length

/-- The function `CDC_puts`: `s` is the address of the string and `str` the
bytes found there. -/
def CDC_puts (st : State) (s : Nat) (str : List Nat) : Outcome Unit :=
  let bytes := strlen str % 4294967296
  let st1 := { st with _bytes_to_send := bytes, _tx_buffer_ptr := s }
  ⟨(), st1, [Effect.USBD_Write CDC_EP_DATA_IN (BufferRef.addr s) bytes
      USB_XferCompleteCb_TypeDef.UsbDataTransmitted_from_ISR]⟩

/-! ## The stack's side of a control transfer -/

/-- Modelled from the spec: the stack (not among the sources) serving a read
armed by `USBD_Read(0, &cdcLineCoding, 7, ...)`: the bytes of the data stage,
at most 7 of them, overwrite the start of the record's memory. -/
def dataStage (st : State) (received : List Nat) : State :=
  let image := received.take 7 ++ st.cdcLineCoding.toBytes.drop (min received.length 7)
  { st with cdcLineCoding := cdcLineCoding_TypeDef.ofBytes image }

/-- The bytes a transfer of `byteCount` bytes takes from one of the driver's
static buffers. -/
def bufferBytes (st : State) (buf : BufferRef) (byteCount : Nat) : List Nat :=
  match buf with
  | BufferRef.cdcLineCoding => st.cdcLineCoding.toBytes.take byteCount
  | BufferRef._rx_buffer => st._rx_buffer.take byteCount
  | BufferRef.addr _ => []

/-- Modelled from the spec: what the host receives through the writes on
endpoint 0 among `effects`, the stack (not among the sources) sending the
bytes of each buffer as they stand in `st`. -/
def controlInData (st : State) (effects : List Effect) : List (List Nat) :=
  effects.filterMap fun e =>
    match e with
    | Effect.USBD_Write 0 buf n _ => some (bufferBytes st buf n)
    | _ => none

/-- The records the validation of `LineCodingReceived_from_ISR` accepts. -/
def cdcLineCoding_TypeDef.Supported (r : cdcLineCoding_TypeDef) : Prop :=
  (r.bDataBits = 5 ∨ r.bDataBits = 6 ∨ r.bDataBits = 7 ∨ r.bDataBits = 8 ∨
      r.bDataBits = 16) ∧
    (r.bParityType = 0 ∨ r.bParityType = 1 ∨ r.bParityType = 2) ∧
    (r.bCharFormat = 0 ∨ r.bCharFormat = 1 ∨ r.bCharFormat = 2)

instance (r : cdcLineCoding_TypeDef) : Decidable r.Supported := by
  unfold cdcLineCoding_TypeDef.Supported; infer_instance

/-- The setup packet of a GET_LINE_CODING request as the driver accepts it. -/
def getLineCodingSetup : USB_Setup_TypeDef :=
  { Recipient := USB_SETUP_RECIPIENT_INTERFACE, Type_ := USB_SETUP_TYPE_CLASS,
    Direction := USB_SETUP_DIR_IN, bRequest := USB_CDC_GETLINECODING,
    wValue := 0, wIndex := CDC_CTRL_INTERFACE_NO, wLength := 7 }

/-- The setup packet of a SET_LINE_CODING request as the driver accepts it. -/
def setLineCodingSetup : USB_Setup_TypeDef :=
  { Recipient := USB_SETUP_RECIPIENT_INTERFACE, Type_ := USB_SETUP_TYPE_CLASS,
    Direction := USB_SETUP_DIR_OUT, bRequest := USB_CDC_SETLINECODING,
    wValue := 0, wIndex := CDC_CTRL_INTERFACE_NO, wLength := 7 }

/-! ## The control endpoint over time -/

/-- What the stack delivers on the control endpoint: a setup packet, the bytes
of a data stage, or the completion of the armed read. -/
inductive ControlEvent
  | setup (s : USB_Setup_TypeDef)
  | data (received : List Nat)
  | complete (status : USB_Status_TypeDef) (xferred remaining : Nat)
  deriving DecidableEq, Repr

/-- The driver together with the stack's side of endpoint 0. `armed` tells
whether a read into the line-coding record is armed. Two fields only observe
the run: `lastValidated` is the record as it stood when the continuation last
returned USB_STATUS_OK (the initial record before that), and `unvalidated`
tells whether a data stage has written the record since. -/
structure Control where
  statics       : State
  armed         : Bool
  lastValidated : cdcLineCoding_TypeDef
  unvalidated   : Bool
  deriving DecidableEq, Repr

/-- The driver before the first event. -/
def Control.init : Control :=
  { statics := State.init, armed := false,
    lastValidated := State.init.cdcLineCoding, unvalidated := false }

/-- Whether `effects` holds the read `CDC_SetupCmd` arms for SET_LINE_CODING. -/
def armsLineCodingRead (effects : List Effect) : Bool :=
  effects.contains (Effect.USBD_Read 0 BufferRef.cdcLineCoding 7
    USB_XferCompleteCb_TypeDef.LineCodingReceived_from_ISR)

/-- Modelled from the spec: one event of the stack (not among the sources) on
endpoint 0. A setup packet goes to `CDC_SetupCmd` and starts a new control
transfer; the bytes of a data stage are stored through `dataStage` when the
read is armed; the completion of the armed read calls
`LineCodingReceived_from_ISR` and ends the transfer. -/
def Control.step (c : Control) : ControlEvent → Control
  | ControlEvent.setup s =>
    let o := CDC_SetupCmd c.statics s
    { c with statics := o.state, armed := armsLineCodingRead o.effects }
  | ControlEvent.data received =>
    if c.armed then
      { c with statics := dataStage c.statics received, unvalidated := true }
    else c
  | ControlEvent.complete status xferred remaining =>
    if c.armed then
      let o := LineCodingReceived_from_ISR c.statics status xferred remaining
      if o.retVal = USB_STATUS_OK then
        { statics := o.state, armed := false,
          lastValidated := o.state.cdcLineCoding, unvalidated := false }
      else
        { c with statics := o.state, armed := false }
    else c

/-- The driver after a sequence of events, first event first. -/
def Control.run (c : Control) (events : List ControlEvent) : Control :=
  events.foldl Control.step c

/-- A SET_LINE_CODING transfer asking for 9600 baud, 8 data bits and Mark
parity (code 3), which the driver does not support. -/
def markParityTransfer : List ControlEvent :=
  [ControlEvent.setup setLineCodingSetup,
   ControlEvent.data [0x80, 0x25, 0, 0, 0, 3, 8],
   ControlEvent.complete USB_STATUS_OK 7 0]

/-- A SET_LINE_CODING transfer asking for 9600 baud, 8 data bits, no parity and
1 stop bit. -/
def plainTransfer : List ControlEvent :=
  [ControlEvent.setup setLineCodingSetup,
   ControlEvent.data [0x80, 0x25, 0, 0, 0, 0, 8],
   ControlEvent.complete USB_STATUS_OK 7 0]

/-- The invariant of the control endpoint: the record last validated is a
supported one, and the stored record is that record unless a data stage has
written the store since. -/
def Control.Inv (c : Control) : Prop :=
  c.lastValidated.Supported ∧
    (c.unvalidated = false → c.statics.cdcLineCoding = c.lastValidated)

/-! ## The bulk endpoints over time -/

/-- The transfers among the calls of `effects`: the reads and writes handed to
the stack, the log calls left out. -/
def transfers (effects : List Effect) : List Effect :=
  effects.filter fun e =>
    match e with
    | Effect.USBD_Read _ _ _ _ => true
    | Effect.USBD_Write _ _ _ _ => true
    | _ => false

/-- The receive transfer the driver arms: a read on the bulk-OUT endpoint into
`_rx_buffer`, of `sizeof(_rx_buffer)` bytes, completed by
`UsbDataReceived_from_ISR`. -/
def receiveTransfer : Effect :=
  Effect.USBD_Read CDC_EP_DATA_OUT BufferRef._rx_buffer CDC_USB_RX_BUF_SIZ
    USB_XferCompleteCb_TypeDef.UsbDataReceived_from_ISR

/-- Modelled from the spec: the stack (not among the sources) serving a read of
`byteCount` bytes into `_rx_buffer`: the bytes received, at most `byteCount`
of them, overwrite the start of the buffer. -/
def bulkOutStage (st : State) (byteCount : Nat) (received : List Nat) : State :=
  let stored := received.take byteCount
  { st with _rx_buffer := stored ++ st._rx_buffer.drop stored.length }

/-- What the stack delivers for the device and its bulk-OUT endpoint: a change
of the device state, or the completion of the armed receive transfer. -/
inductive DeviceEvent
  | stateChange (oldState newState : USBD_State_TypeDef)
  | received (status : USB_Status_TypeDef) (rx_count remaining_count : Nat)
  deriving DecidableEq, Repr

/-- The driver together with the stack's side of the device: `usbState` is the
device state last entered (the driver itself keeps none) and `rxArmed` tells
whether a receive transfer is armed. -/
structure Device where
  statics  : State
  usbState : USBD_State_TypeDef
  rxArmed  : Bool
  deriving DecidableEq, Repr

/-- The device before the first event. -/
def Device.init : Device :=
  { statics := State.init, usbState := USBD_State_TypeDef.USBD_STATE_NONE,
    rxArmed := false }

/-- The outcome of the driver function the stack calls for an event; the
completion callback is called only when a receive transfer is armed. -/
def Device.call (d : Device) : DeviceEvent → Outcome Unit
  | DeviceEvent.stateChange oldState newState =>
    CDC_StateChangeEvent d.statics oldState newState
  | DeviceEvent.received status rx_count remaining_count =>
    if d.rxArmed then
      let o := UsbDataReceived_from_ISR d.statics status rx_count remaining_count
      ⟨(), o.state, o.effects⟩
    else ⟨(), d.statics, []⟩

/-- Modelled from the spec: one event of the stack (not among the sources). A
state change enters `newState` and calls `CDC_StateChangeEvent`, leaving a
transfer in flight as it is; a completion ends the armed transfer and calls
`UsbDataReceived_from_ISR`, which may arm the next one. -/
def Device.step (d : Device) (e : DeviceEvent) : Device :=
  match e with
  | DeviceEvent.stateChange _ newState =>
    { statics := (d.call e).state, usbState := newState,
      rxArmed := d.rxArmed || (d.call e).effects.contains receiveTransfer }
  | DeviceEvent.received _ _ _ =>
    { d with statics := (d.call e).state,
             rxArmed := (d.call e).effects.contains receiveTransfer }

/-- The device after a sequence of events, first event first. -/
def Device.run (d : Device) (events : List DeviceEvent) : Device :=
  events.foldl Device.step d

/-- The device configured and then de-configured, a receive transfer still in
flight. -/
def deconfigured : List DeviceEvent :=
  [DeviceEvent.stateChange USBD_State_TypeDef.USBD_STATE_ADDRESSED USBD_STATE_CONFIGURED,
   DeviceEvent.stateChange USBD_STATE_CONFIGURED USBD_State_TypeDef.USBD_STATE_ADDRESSED]

/-- The transmit callback called for a sequence of completions
(status, xferred, remaining), first completion first: the statics afterwards
and the calls made. -/
def transmitCompletions (st : State) :
    List (USB_Status_TypeDef × Nat × Nat) → State × List Effect
  | [] => (st, [])
  | (status, xferred, remaining) :: rest =>
    let o := UsbDataTransmitted_from_ISR st status xferred remaining
    let r := transmitCompletions o.state rest
    (r.1, o.effects ++ r.2)

/-- Completions with status OK, one for each byte count of `xs`. -/
def okCompletions (xs : List Nat) : List (USB_Status_TypeDef × Nat × Nat) :=
  xs.map fun x => (USB_STATUS_OK, x, 0)

/-- The chain of writes as the spec words it, for a cursor at address `p` with
`b` bytes remaining: after each completion of `x` bytes the next write starts
where the previous one ended and asks for all that remains. -/
def chainedWrites (p b : Nat) : List Nat → List Effect
  | [] => []
  | x :: xs =>
    Effect.USBD_Write CDC_EP_DATA_IN (BufferRef.addr (p + x)) (b - x)
        USB_XferCompleteCb_TypeDef.UsbDataTransmitted_from_ISR
      :: chainedWrites (p + x) (b - x) xs

/-- The byte count a transfer asks for. -/
def Effect.byteCount : Effect → Nat
  | Effect.USBD_Write _ _ n _ => n
  | Effect.USBD_Read _ _ n _ => n
  | Effect.SEGGER_RTT_Write _ _ n => n
  | Effect.SEGGER_RTT_printf _ _ _ => 0

/-- Modelled from the spec: the stack (not among the sources) completing every
bulk-IN write in full with status OK, `k` times over, starting with a pending
write of `pending` bytes: the writes the transmit callback issues meanwhile. -/
def completedInFull : Nat → State → Nat → List Effect
  | 0, _, _ => []
  | k + 1, st, pending =>
    let o := UsbDataTransmitted_from_ISR st USB_STATUS_OK pending 0
    match o.effects with
    | [Effect.USBD_Write ep buf n cb] =>
      Effect.USBD_Write ep buf n cb :: completedInFull k o.state n
    | _ => []

/-- A string of 300 letters `A` with its terminator. -/
def string300 : List Nat := List.replicate 300 65 ++ [0]

/-! ## The line-coding continuation -/

/-- C1: for every stored record (of any baud rate) whose bDataBits is 5, 6, 7, 8
or 16, whose bParityType is 0, 1 or 2 and whose bCharFormat is 0, 1 or 2, the
continuation called with status OK and 7 bytes transferred returns
USB_STATUS_OK, makes no call and leaves the statics as they were; a
GET_LINE_CODING that follows is answered with one write of the first 7 bytes
of that same record. -/
theorem lineCodingReceived_accepts_supported (st : State) (remaining : Nat)
    (hd : st.cdcLineCoding.bDataBits = 5 ∨ st.cdcLineCoding.bDataBits = 6 ∨
      st.cdcLineCoding.bDataBits = 7 ∨ st.cdcLineCoding.bDataBits = 8 ∨
      st.cdcLineCoding.bDataBits = 16)
    (hp : st.cdcLineCoding.bParityType = 0 ∨ st.cdcLineCoding.bParityType = 1 ∨
      st.cdcLineCoding.bParityType = 2)
    (hc : st.cdcLineCoding.bCharFormat = 0 ∨ st.cdcLineCoding.bCharFormat = 1 ∨
      st.cdcLineCoding.bCharFormat = 2) :
    LineCodingReceived_from_ISR st USB_STATUS_OK 7 remaining
        = ⟨USB_STATUS_OK, st, []⟩ ∧
      (LineCodingReceived_from_ISR st USB_STATUS_OK 7 remaining).state.cdcLineCoding
        = st.cdcLineCoding ∧
      CDC_SetupCmd (LineCodingReceived_from_ISR st USB_STATUS_OK 7 remaining).state
          getLineCodingSetup
        = ⟨USB_STATUS_OK, st, [Effect.USBD_Write 0 BufferRef.cdcLineCoding 7
            USB_XferCompleteCb_TypeDef.NULL]⟩ ∧
      controlInData (LineCodingReceived_from_ISR st USB_STATUS_OK 7 remaining).state
          (CDC_SetupCmd (LineCodingReceived_from_ISR st USB_STATUS_OK 7 remaining).state
            getLineCodingSetup).effects
        = [st.cdcLineCoding.toBytes.take 7] := by
  have h : LineCodingReceived_from_ISR st USB_STATUS_OK 7 remaining
      = ⟨USB_STATUS_OK, st, []⟩ := by
    rcases hd with hd | hd | hd | hd | hd <;> rcases hp with hp | hp | hp <;>
      rcases hc with hc | hc | hc <;>
      simp [LineCodingReceived_from_ISR, checkDataBits, checkParityType,
        checkCharFormat, hd, hp, hc]
  rw [h]
  refine ⟨rfl, rfl, ?_, ?_⟩
  · simp [CDC_SetupCmd, getLineCodingSetup, USB_SETUP_TYPE_CLASS,
      USB_SETUP_RECIPIENT_INTERFACE, USB_CDC_GETLINECODING, CDC_CTRL_INTERFACE_NO,
      USB_SETUP_DIR_IN]
  · simp [CDC_SetupCmd, getLineCodingSetup, USB_SETUP_TYPE_CLASS,
      USB_SETUP_RECIPIENT_INTERFACE, USB_CDC_GETLINECODING, CDC_CTRL_INTERFACE_NO,
      USB_SETUP_DIR_IN, controlInData, bufferBytes]

/-- C1 at the initial statics (115200 baud, 8 data bits, no parity, 1 stop
bit). -/
theorem lineCodingReceived_accepts_supported_witness :
    (State.init.cdcLineCoding.bDataBits = 5 ∨ State.init.cdcLineCoding.bDataBits = 6 ∨
      State.init.cdcLineCoding.bDataBits = 7 ∨ State.init.cdcLineCoding.bDataBits = 8 ∨
      State.init.cdcLineCoding.bDataBits = 16) ∧
    LineCodingReceived_from_ISR State.init USB_STATUS_OK 7 0
      = ⟨USB_STATUS_OK, State.init, []⟩ :=
  ⟨by decide,
   (lineCodingReceived_accepts_supported State.init 0 (by decide) (by decide)
      (by decide)).1⟩

/-- C2: for every stored record whose bDataBits is not 5, 6, 7, 8 or 16, or
whose bParityType is above 2 (Mark, Space or anything else), or whose
bCharFormat is above 2, the continuation called with status OK and 7 bytes
transferred returns USB_STATUS_REQ_ERR, makes no call and leaves the statics as
they were. One violated field is enough, whatever the other two hold: nothing
is assumed of the parity and stop-bit fields when bDataBits is invalid, nor of
the stop-bit field when the parity is. -/
theorem lineCodingReceived_rejects_unsupported (st : State) (remaining : Nat)
    (h : (st.cdcLineCoding.bDataBits ≠ 5 ∧ st.cdcLineCoding.bDataBits ≠ 6 ∧
        st.cdcLineCoding.bDataBits ≠ 7 ∧ st.cdcLineCoding.bDataBits ≠ 8 ∧
        st.cdcLineCoding.bDataBits ≠ 16) ∨
      2 < st.cdcLineCoding.bParityType ∨ 2 < st.cdcLineCoding.bCharFormat) :
    LineCodingReceived_from_ISR st USB_STATUS_OK 7 remaining
      = ⟨USB_STATUS_REQ_ERR, st, []⟩ := by
  unfold LineCodingReceived_from_ISR
  simp only [and_self, if_true]
  rcases h with ⟨h5, h6, h7, h8, h16⟩ | h | h
  · simp [checkDataBits, h5, h6, h7, h8, h16]
  · have h0 : st.cdcLineCoding.bParityType ≠ 0 := by omega
    have h1 : st.cdcLineCoding.bParityType ≠ 1 := by omega
    have h2 : st.cdcLineCoding.bParityType ≠ 2 := by omega
    cases checkDataBits st.cdcLineCoding.bDataBits 0 <;>
      simp [checkParityType, h0, h1, h2]
  · have h0 : st.cdcLineCoding.bCharFormat ≠ 0 := by omega
    have h1 : st.cdcLineCoding.bCharFormat ≠ 1 := by omega
    have h2 : st.cdcLineCoding.bCharFormat ≠ 2 := by omega
    have hn : ∀ f, checkCharFormat st.cdcLineCoding.bCharFormat f = none := by
      intro f; simp [checkCharFormat, h0, h1, h2]
    cases checkDataBits st.cdcLineCoding.bDataBits 0 with
    | none => rfl
    | some f =>
      show (match checkParityType st.cdcLineCoding.bParityType f with
        | none => _
        | some frame => _) = _
      cases checkParityType st.cdcLineCoding.bParityType f with
      | none => rfl
      | some g => simp [hn]

/-- C2 at a record with 9 data bits, Mark parity and an invalid stop-bit code:
the data-bits check already rejects it. -/
theorem lineCodingReceived_rejects_unsupported_witness :
    LineCodingReceived_from_ISR
        { State.init with cdcLineCoding :=
            { dwDTERate := 9600, bCharFormat := 7, bParityType := 3, bDataBits := 9,
              dummy := 0 } }
        USB_STATUS_OK 7 0
      = ⟨USB_STATUS_REQ_ERR,
          { State.init with cdcLineCoding :=
            { dwDTERate := 9600, bCharFormat := 7, bParityType := 3, bDataBits := 9,
              dummy := 0 } }, []⟩ :=
  lineCodingReceived_rejects_unsupported _ 0 (Or.inl (by decide))

/-- C3: whenever the status is not USB_STATUS_OK or the number of bytes
transferred is not 7, the continuation returns USB_STATUS_REQ_ERR, makes no
call and leaves the statics as they were; the stored record plays no part, the
return value being the same for every other state of the statics. -/
theorem lineCodingReceived_rejects_bad_transfer (st st' : State)
    (status : USB_Status_TypeDef) (xferred remaining : Nat)
    (h : status ≠ USB_STATUS_OK ∨ xferred ≠ 7) :
    LineCodingReceived_from_ISR st status xferred remaining
        = ⟨USB_STATUS_REQ_ERR, st, []⟩ ∧
      (LineCodingReceived_from_ISR st' status xferred remaining).retVal
        = USB_STATUS_REQ_ERR := by
  have hc : ¬ (status = USB_STATUS_OK ∧ xferred = 7) := by
    rintro ⟨h1, h2⟩
    rcases h with h | h
    · exact h h1
    · exact h h2
  simp [LineCodingReceived_from_ISR, hc]

/-- C3 at a short data stage: status OK but only 6 bytes transferred, on the
(valid) initial record. -/
theorem lineCodingReceived_rejects_bad_transfer_witness :
    LineCodingReceived_from_ISR State.init USB_STATUS_OK 6 1
      = ⟨USB_STATUS_REQ_ERR, State.init, []⟩ :=
  (lineCodingReceived_rejects_bad_transfer State.init State.init USB_STATUS_OK 6 1
    (Or.inr (by decide))).1

/-! ## The setup-command handler -/

/-- C4: a setup packet whose Type is not Class, or whose Recipient is not
Interface, or whose bRequest is none of GET_LINE_CODING, SET_LINE_CODING and
SET_CONTROL_LINE_STATE, makes `CDC_SetupCmd` return USB_STATUS_REQ_UNHANDLED
with no call into the stack and the statics unchanged, whatever the other
fields of the packet are. -/
theorem setupCmd_not_mine (st : State) (setup : USB_Setup_TypeDef)
    (h : setup.Type_ ≠ USB_SETUP_TYPE_CLASS ∨
      setup.Recipient ≠ USB_SETUP_RECIPIENT_INTERFACE ∨
      (setup.bRequest ≠ USB_CDC_GETLINECODING ∧
        setup.bRequest ≠ USB_CDC_SETLINECODING ∧
        setup.bRequest ≠ USB_CDC_SETCTRLLINESTATE)) :
    CDC_SetupCmd st setup = ⟨USB_STATUS_REQ_UNHANDLED, st, []⟩ := by
  unfold CDC_SetupCmd
  rcases h with h | h | ⟨hg, hs, hc⟩
  · simp [h]
  · simp [h]
  · simp [hg, hs, hc]

/-- C4 at a standard (Type 0) device request, and at a class/interface request
with the code 0x23 (SEND_BREAK). -/
theorem setupCmd_not_mine_witness :
    CDC_SetupCmd State.init
        { Recipient := 0, Type_ := 0, Direction := 1, bRequest := 0x21, wValue := 0,
          wIndex := 0, wLength := 7 }
      = ⟨USB_STATUS_REQ_UNHANDLED, State.init, []⟩ ∧
    CDC_SetupCmd State.init
        { Recipient := 1, Type_ := 1, Direction := 0, bRequest := 0x23, wValue := 0,
          wIndex := 0, wLength := 0 }
      = ⟨USB_STATUS_REQ_UNHANDLED, State.init, []⟩ :=
  ⟨setupCmd_not_mine _ _ (Or.inl (by decide)),
   setupCmd_not_mine _ _ (Or.inr (Or.inr (by decide)))⟩

/-- C5: a Class/Interface GET_LINE_CODING packet with wValue 0, wIndex the
control interface, wLength 7 and Direction IN makes `CDC_SetupCmd` return
USB_STATUS_OK after exactly one call, a write on endpoint 0 of 7 bytes from the
line-coding record with no completion callback; the statics are unchanged, and
the 7 bytes are the baud rate, least significant byte first, then bCharFormat,
bParityType and bDataBits. -/
theorem setupCmd_getLineCoding (st : State) (setup : USB_Setup_TypeDef)
    (hr : st.cdcLineCoding.InRange)
    (hT : setup.Type_ = USB_SETUP_TYPE_CLASS)
    (hR : setup.Recipient = USB_SETUP_RECIPIENT_INTERFACE)
    (hreq : setup.bRequest = USB_CDC_GETLINECODING)
    (hV : setup.wValue = 0) (hI : setup.wIndex = CDC_CTRL_INTERFACE_NO)
    (hL : setup.wLength = 7) (hD : setup.Direction = USB_SETUP_DIR_IN) :
    CDC_SetupCmd st setup
        = ⟨USB_STATUS_OK, st, [Effect.USBD_Write 0 BufferRef.cdcLineCoding 7
            USB_XferCompleteCb_TypeDef.NULL]⟩ ∧
      controlInData st (CDC_SetupCmd st setup).effects
        = [[st.cdcLineCoding.dwDTERate % 256, st.cdcLineCoding.dwDTERate / 256 % 256,
            st.cdcLineCoding.dwDTERate / 65536 % 256,
            st.cdcLineCoding.dwDTERate / 16777216,
            st.cdcLineCoding.bCharFormat, st.cdcLineCoding.bParityType,
            st.cdcLineCoding.bDataBits]] ∧
      cdcLineCoding_TypeDef.ofBytes (bufferBytes st BufferRef.cdcLineCoding 7)
        = { st.cdcLineCoding with dummy := 0 } := by
  obtain ⟨h1, h2, h3, h4, _⟩ := hr
  have hc : CDC_SetupCmd st setup
      = ⟨USB_STATUS_OK, st, [Effect.USBD_Write 0 BufferRef.cdcLineCoding 7
          USB_XferCompleteCb_TypeDef.NULL]⟩ := by
    simp [CDC_SetupCmd, hT, hR, hreq, hV, hI, hL, hD]
  have e4 : st.cdcLineCoding.dwDTERate / 16777216 % 256
      = st.cdcLineCoding.dwDTERate / 16777216 := by omega
  refine ⟨hc, ?_, ?_⟩
  · rw [hc]
    simp [controlInData, bufferBytes, cdcLineCoding_TypeDef.toBytes,
      Nat.mod_eq_of_lt h2, Nat.mod_eq_of_lt h3, Nat.mod_eq_of_lt h4, e4]
  · simp only [bufferBytes, cdcLineCoding_TypeDef.toBytes, cdcLineCoding_TypeDef.ofBytes,
      List.take, List.getD_cons_zero, List.getD_cons_succ, List.getD_nil, Nat.mod_mod,
      Nat.mod_eq_of_lt h2, Nat.mod_eq_of_lt h3, Nat.mod_eq_of_lt h4, Nat.zero_mod]
    congr 1
    omega

/-- C5 at the initial record: 115200 = 0x0001C200, so the host reads
00 C2 01 00, then 0 (1 stop bit), 0 (no parity), 8 (data bits). -/
theorem setupCmd_getLineCoding_witness :
    controlInData State.init (CDC_SetupCmd State.init getLineCodingSetup).effects
      = [[0x00, 0xC2, 0x01, 0x00, 0, 0, 8]] :=
  (setupCmd_getLineCoding State.init getLineCodingSetup (by decide) rfl rfl rfl rfl rfl
    rfl rfl).2.1

/-- C6: a GET_LINE_CODING packet with wLength other than 7, or wIndex other than
the control interface, or Direction other than IN, or wValue other than 0,
makes `CDC_SetupCmd` return USB_STATUS_REQ_UNHANDLED with no call and the
statics unchanged; and for every setup packet the return value is
USB_STATUS_OK or USB_STATUS_REQ_UNHANDLED. -/
theorem setupCmd_getLineCoding_mismatch (st : State) (setup : USB_Setup_TypeDef) :
    ((CDC_SetupCmd st setup).retVal = USB_STATUS_OK ∨
        (CDC_SetupCmd st setup).retVal = USB_STATUS_REQ_UNHANDLED) ∧
      (setup.bRequest = USB_CDC_GETLINECODING →
        (setup.wLength ≠ 7 ∨ setup.wIndex ≠ CDC_CTRL_INTERFACE_NO ∨
          setup.Direction ≠ USB_SETUP_DIR_IN ∨ setup.wValue ≠ 0) →
        CDC_SetupCmd st setup = ⟨USB_STATUS_REQ_UNHANDLED, st, []⟩) := by
  constructor
  · unfold CDC_SetupCmd
    split_ifs <;> simp
  · intro hreq h
    have hc : ¬ (setup.wValue = 0 ∧ setup.wIndex = CDC_CTRL_INTERFACE_NO ∧
        setup.wLength = 7 ∧ setup.Direction = USB_SETUP_DIR_IN) := by
      rintro ⟨hV, hI, hL, hD⟩
      rcases h with h | h | h | h
      · exact h hL
      · exact h hI
      · exact h hD
      · exact h hV
    simp only [CDC_SetupCmd, if_pos hreq, if_neg hc]
    split_ifs <;> rfl

/-- C6 at a Class/Interface GET_LINE_CODING asking for 8 bytes instead of
7. -/
theorem setupCmd_getLineCoding_mismatch_witness :
    CDC_SetupCmd State.init { getLineCodingSetup with wLength := 8 }
      = ⟨USB_STATUS_REQ_UNHANDLED, State.init, []⟩ :=
  (setupCmd_getLineCoding_mismatch State.init { getLineCodingSetup with wLength := 8 }).2
    rfl (Or.inl (by decide))

/-- C7: for a Class/Interface SET_LINE_CODING packet, when wValue is 0, wIndex
the control interface, wLength 7 and Direction OUT, `CDC_SetupCmd` returns
USB_STATUS_OK after exactly one call, a read on endpoint 0 of 7 bytes into the
line-coding record with `LineCodingReceived_from_ISR` as completion callback,
for every content of the statics and without changing them; when one of the
four fields differs (Direction being a one-bit field) it returns
USB_STATUS_REQ_UNHANDLED and makes no call. -/
theorem setupCmd_setLineCoding (st : State) (setup : USB_Setup_TypeDef)
    (hT : setup.Type_ = USB_SETUP_TYPE_CLASS)
    (hR : setup.Recipient = USB_SETUP_RECIPIENT_INTERFACE)
    (hreq : setup.bRequest = USB_CDC_SETLINECODING)
    (hbit : setup.Direction < 2) :
    (setup.wValue = 0 ∧ setup.wIndex = CDC_CTRL_INTERFACE_NO ∧ setup.wLength = 7 ∧
        setup.Direction = USB_SETUP_DIR_OUT →
      CDC_SetupCmd st setup
        = ⟨USB_STATUS_OK, st, [Effect.USBD_Read 0 BufferRef.cdcLineCoding 7
            USB_XferCompleteCb_TypeDef.LineCodingReceived_from_ISR]⟩) ∧
    (setup.wValue ≠ 0 ∨ setup.wIndex ≠ CDC_CTRL_INTERFACE_NO ∨ setup.wLength ≠ 7 ∨
        setup.Direction ≠ USB_SETUP_DIR_OUT →
      CDC_SetupCmd st setup = ⟨USB_STATUS_REQ_UNHANDLED, st, []⟩) := by
  have hne : USB_CDC_SETLINECODING ≠ USB_CDC_GETLINECODING := by decide
  constructor
  · rintro ⟨hV, hI, hL, hD⟩
    have hD1 : setup.Direction ≠ USB_SETUP_DIR_IN := by
      rw [hD]; decide
    simp [CDC_SetupCmd, hT, hR, hreq, hne, hV, hI, hL, hD1]
  · intro h
    have hc : ¬ (setup.wValue = 0 ∧ setup.wIndex = CDC_CTRL_INTERFACE_NO ∧
        setup.wLength = 7 ∧ setup.Direction ≠ USB_SETUP_DIR_IN) := by
      rintro ⟨hV, hI, hL, hD⟩
      rcases h with h | h | h | h
      · exact h hV
      · exact h hI
      · exact h hL
      · simp only [USB_SETUP_DIR_IN, USB_SETUP_DIR_OUT] at h hD
        omega
    simp only [CDC_SetupCmd, hT, hR, hreq, and_self, if_true, if_neg hne, if_neg hc]

/-- C7 at the matching packet, and at the same packet sent with Direction
IN. -/
theorem setupCmd_setLineCoding_witness :
    CDC_SetupCmd State.init setLineCodingSetup
      = ⟨USB_STATUS_OK, State.init, [Effect.USBD_Read 0 BufferRef.cdcLineCoding 7
          USB_XferCompleteCb_TypeDef.LineCodingReceived_from_ISR]⟩ ∧
    CDC_SetupCmd State.init { setLineCodingSetup with Direction := USB_SETUP_DIR_IN }
      = ⟨USB_STATUS_REQ_UNHANDLED, State.init, []⟩ :=
  ⟨(setupCmd_setLineCoding State.init setLineCodingSetup rfl rfl rfl (by decide)).1
      ⟨rfl, rfl, rfl, rfl⟩,
   (setupCmd_setLineCoding State.init
      { setLineCodingSetup with Direction := USB_SETUP_DIR_IN } rfl rfl rfl
      (by decide)).2 (Or.inr (Or.inr (Or.inr (by decide))))⟩

/-- C8: for a Class/Interface SET_CONTROL_LINE_STATE packet, when wIndex is the
control interface and wLength is 0, `CDC_SetupCmd` returns USB_STATUS_OK for
every wValue and Direction, makes no call and leaves all the statics (record,
receive buffer, transmit pointer and count) unchanged; with another wIndex or
a non-zero wLength it returns USB_STATUS_REQ_UNHANDLED. -/
theorem setupCmd_setControlLineState (st : State) (setup : USB_Setup_TypeDef)
    (hT : setup.Type_ = USB_SETUP_TYPE_CLASS)
    (hR : setup.Recipient = USB_SETUP_RECIPIENT_INTERFACE)
    (hreq : setup.bRequest = USB_CDC_SETCTRLLINESTATE) :
    (setup.wIndex = CDC_CTRL_INTERFACE_NO ∧ setup.wLength = 0 →
      CDC_SetupCmd st setup = ⟨USB_STATUS_OK, st, []⟩) ∧
    (setup.wIndex ≠ CDC_CTRL_INTERFACE_NO ∨ setup.wLength ≠ 0 →
      CDC_SetupCmd st setup = ⟨USB_STATUS_REQ_UNHANDLED, st, []⟩) := by
  have hg : USB_CDC_SETCTRLLINESTATE ≠ USB_CDC_GETLINECODING := by decide
  have hs : USB_CDC_SETCTRLLINESTATE ≠ USB_CDC_SETLINECODING := by decide
  constructor
  · rintro ⟨hI, hL⟩
    simp [CDC_SetupCmd, hT, hR, hreq, hg, hs, hI, hL]
  · intro h
    have hc : ¬ (setup.wIndex = CDC_CTRL_INTERFACE_NO ∧ setup.wLength = 0) := by
      rintro ⟨hI, hL⟩
      rcases h with h | h
      · exact h hI
      · exact h hL
    simp only [CDC_SetupCmd, hT, hR, hreq, and_self, if_true, if_neg hg, if_neg hs,
      if_neg hc]

/-- C8 at a packet raising DTR and RTS (wValue 3), and at the same packet
addressed to interface 1. -/
theorem setupCmd_setControlLineState_witness :
    CDC_SetupCmd State.init
        { Recipient := 1, Type_ := 1, Direction := 0, bRequest := 0x22, wValue := 3,
          wIndex := 0, wLength := 0 }
      = ⟨USB_STATUS_OK, State.init, []⟩ ∧
    CDC_SetupCmd State.init
        { Recipient := 1, Type_ := 1, Direction := 0, bRequest := 0x22, wValue := 3,
          wIndex := 1, wLength := 0 }
      = ⟨USB_STATUS_REQ_UNHANDLED, State.init, []⟩ :=
  ⟨(setupCmd_setControlLineState State.init _ rfl rfl rfl).1 ⟨rfl, rfl⟩,
   (setupCmd_setControlLineState State.init _ rfl rfl rfl).2 (Or.inl (by decide))⟩

/-! ## Control transfers end to end -/

/-- The record left in the statics by a data stage carrying the 7 wire bytes of
`r`: the fields of `r` reduced to their widths, the padding byte kept. -/
theorem dataStage_toBytes (st : State) (r : cdcLineCoding_TypeDef) :
    dataStage st (r.toBytes.take 7)
      = { st with cdcLineCoding :=
          { dwDTERate := r.dwDTERate % 4294967296, bCharFormat := r.bCharFormat % 256,
            bParityType := r.bParityType % 256, bDataBits := r.bDataBits % 256,
            dummy := st.cdcLineCoding.dummy % 256 } } := by
  simp only [dataStage, cdcLineCoding_TypeDef.toBytes, cdcLineCoding_TypeDef.ofBytes,
    List.take, List.length_cons, List.length_nil, List.drop, List.cons_append,
    List.nil_append, List.getD_cons_zero, List.getD_cons_succ, Nat.mod_mod,
    Nat.reduceAdd, Nat.min_self, List.drop_succ_cons, List.drop_zero]
  congr 2
  omega

/-- A supported record has its three code fields within a byte. -/
theorem Supported.lt_256 {r : cdcLineCoding_TypeDef} (h : r.Supported) :
    r.bCharFormat < 256 ∧ r.bParityType < 256 ∧ r.bDataBits < 256 := by
  obtain ⟨hd, hp, hc⟩ := h
  refine ⟨?_, ?_, ?_⟩ <;> omega

/-- C9: round trip of a supported record `r` with a 32-bit baud rate, from any
state of the statics: the matching SET_LINE_CODING packet returns
USB_STATUS_OK and arms the 7-byte read into the record; once the data stage
has stored the 7 wire bytes of `r`, the continuation called with (OK, 7)
returns USB_STATUS_OK, the stored baud rate, stop-bit, parity and data-bit
fields are those of `r`, and a matching GET_LINE_CODING then writes exactly
the 7 bytes the host sent. -/
theorem lineCoding_round_trip (st : State) (r : cdcLineCoding_TypeDef) (remaining : Nat)
    (hs : r.Supported) (hb : r.dwDTERate < 4294967296) :
    CDC_SetupCmd st setLineCodingSetup
        = ⟨USB_STATUS_OK, st, [Effect.USBD_Read 0 BufferRef.cdcLineCoding 7
            USB_XferCompleteCb_TypeDef.LineCodingReceived_from_ISR]⟩ ∧
      LineCodingReceived_from_ISR
          (dataStage (CDC_SetupCmd st setLineCodingSetup).state (r.toBytes.take 7))
          USB_STATUS_OK 7 remaining
        = ⟨USB_STATUS_OK, dataStage st (r.toBytes.take 7), []⟩ ∧
      (dataStage st (r.toBytes.take 7)).cdcLineCoding
        = { r with dummy := st.cdcLineCoding.dummy % 256 } ∧
      CDC_SetupCmd (dataStage st (r.toBytes.take 7)) getLineCodingSetup
        = ⟨USB_STATUS_OK, dataStage st (r.toBytes.take 7),
            [Effect.USBD_Write 0 BufferRef.cdcLineCoding 7
              USB_XferCompleteCb_TypeDef.NULL]⟩ ∧
      controlInData (dataStage st (r.toBytes.take 7))
          (CDC_SetupCmd (dataStage st (r.toBytes.take 7)) getLineCodingSetup).effects
        = [r.toBytes.take 7] := by
  obtain ⟨hcf, hpt, hdb⟩ := Supported.lt_256 hs
  have hset : CDC_SetupCmd st setLineCodingSetup
      = ⟨USB_STATUS_OK, st, [Effect.USBD_Read 0 BufferRef.cdcLineCoding 7
          USB_XferCompleteCb_TypeDef.LineCodingReceived_from_ISR]⟩ := by
    simp [CDC_SetupCmd, setLineCodingSetup, USB_SETUP_TYPE_CLASS,
      USB_SETUP_RECIPIENT_INTERFACE, USB_CDC_SETLINECODING, USB_CDC_GETLINECODING,
      CDC_CTRL_INTERFACE_NO, USB_SETUP_DIR_IN, USB_SETUP_DIR_OUT]
  have hrec : (dataStage st (r.toBytes.take 7)).cdcLineCoding
      = { r with dummy := st.cdcLineCoding.dummy % 256 } := by
    rw [dataStage_toBytes]
    simp [Nat.mod_eq_of_lt hb, Nat.mod_eq_of_lt hcf, Nat.mod_eq_of_lt hpt,
      Nat.mod_eq_of_lt hdb]
  have hget : ∀ s : State, CDC_SetupCmd s getLineCodingSetup
      = ⟨USB_STATUS_OK, s, [Effect.USBD_Write 0 BufferRef.cdcLineCoding 7
          USB_XferCompleteCb_TypeDef.NULL]⟩ := by
    intro s
    simp [CDC_SetupCmd, getLineCodingSetup, USB_SETUP_TYPE_CLASS,
      USB_SETUP_RECIPIENT_INTERFACE, USB_CDC_GETLINECODING, CDC_CTRL_INTERFACE_NO,
      USB_SETUP_DIR_IN]
  have hval : LineCodingReceived_from_ISR (dataStage st (r.toBytes.take 7))
      USB_STATUS_OK 7 remaining
      = ⟨USB_STATUS_OK, dataStage st (r.toBytes.take 7), []⟩ := by
    obtain ⟨hd, hp, hc⟩ := hs
    rcases hd with hd | hd | hd | hd | hd <;> rcases hp with hp | hp | hp <;>
      rcases hc with hc | hc | hc <;>
      simp [LineCodingReceived_from_ISR, checkDataBits, checkParityType,
        checkCharFormat, hrec, hd, hp, hc]
  refine ⟨hset, ?_, hrec, hget _, ?_⟩
  · rw [hset]; exact hval
  · rw [hget]
    show [List.take 7 (dataStage st (r.toBytes.take 7)).cdcLineCoding.toBytes] = _
    rw [hrec]
    rfl

/-- C9 at 9600 baud, 1 stop bit, no parity, 8 data bits, from the initial
statics: the host sends 80 25 00 00 00 00 08, the continuation accepts, the
store holds 9600/0/0/8 and GET_LINE_CODING returns the same 7 bytes. -/
theorem lineCoding_round_trip_witness :
    (dataStage State.init [0x80, 0x25, 0, 0, 0, 0, 8]).cdcLineCoding
      = { dwDTERate := 9600, bCharFormat := 0, bParityType := 0, bDataBits := 8,
          dummy := 0 } ∧
    LineCodingReceived_from_ISR (dataStage State.init [0x80, 0x25, 0, 0, 0, 0, 8])
        USB_STATUS_OK 7 0
      = ⟨USB_STATUS_OK, dataStage State.init [0x80, 0x25, 0, 0, 0, 0, 8], []⟩ ∧
    controlInData (dataStage State.init [0x80, 0x25, 0, 0, 0, 0, 8])
        (CDC_SetupCmd (dataStage State.init [0x80, 0x25, 0, 0, 0, 0, 8])
          getLineCodingSetup).effects
      = [[0x80, 0x25, 0, 0, 0, 0, 8]] :=
  have h := lineCoding_round_trip State.init
    { dwDTERate := 9600, bCharFormat := 0, bParityType := 0, bDataBits := 8, dummy := 0 }
    0 (by decide) (by decide)
  ⟨h.2.2.1, h.2.1, h.2.2.2.2⟩

/-! ## The stored record over a run -/

/-- The continuation never writes the statics. -/
theorem LineCodingReceived_from_ISR_state (st : State) (status : USB_Status_TypeDef)
    (xferred remaining : Nat) :
    (LineCodingReceived_from_ISR st status xferred remaining).state = st := by
  unfold LineCodingReceived_from_ISR
  dsimp only
  split_ifs
  · split
    · rfl
    · split
      · rfl
      · split <;> rfl
  · rfl

/-- The setup handler never writes the statics. -/
theorem CDC_SetupCmd_state (st : State) (setup : USB_Setup_TypeDef) :
    (CDC_SetupCmd st setup).state = st := by
  unfold CDC_SetupCmd
  split_ifs <;> rfl

/-- A record the continuation accepts is a supported one. -/
theorem supported_of_accepted (st : State) (status : USB_Status_TypeDef)
    (xferred remaining : Nat)
    (h : (LineCodingReceived_from_ISR st status xferred remaining).retVal
      = USB_STATUS_OK) :
    st.cdcLineCoding.Supported := by
  by_contra hn
  have hbad : (st.cdcLineCoding.bDataBits ≠ 5 ∧ st.cdcLineCoding.bDataBits ≠ 6 ∧
        st.cdcLineCoding.bDataBits ≠ 7 ∧ st.cdcLineCoding.bDataBits ≠ 8 ∧
        st.cdcLineCoding.bDataBits ≠ 16) ∨
      2 < st.cdcLineCoding.bParityType ∨ 2 < st.cdcLineCoding.bCharFormat := by
    unfold cdcLineCoding_TypeDef.Supported at hn
    omega
  by_cases hg : status = USB_STATUS_OK ∧ xferred = 7
  · obtain ⟨h1, h2⟩ := hg
    subst h1 h2
    unfold LineCodingReceived_from_ISR at h
    simp only [and_self, if_true] at h
    rcases hbad with ⟨h5, h6, h7, h8, h16⟩ | hp | hc
    · simp [checkDataBits, h5, h6, h7, h8, h16] at h
    · have h0 : st.cdcLineCoding.bParityType ≠ 0 := by omega
      have h1 : st.cdcLineCoding.bParityType ≠ 1 := by omega
      have h2 : st.cdcLineCoding.bParityType ≠ 2 := by omega
      cases hd : checkDataBits st.cdcLineCoding.bDataBits 0 <;>
        simp [hd, checkParityType, h0, h1, h2] at h
    · have h0 : st.cdcLineCoding.bCharFormat ≠ 0 := by omega
      have h1 : st.cdcLineCoding.bCharFormat ≠ 1 := by omega
      have h2 : st.cdcLineCoding.bCharFormat ≠ 2 := by omega
      have hn : ∀ f, checkCharFormat st.cdcLineCoding.bCharFormat f = none := by
        intro f; simp [checkCharFormat, h0, h1, h2]
      cases hd : checkDataBits st.cdcLineCoding.bDataBits 0 with
      | none => simp [hd] at h
      | some f =>
        cases hq : checkParityType st.cdcLineCoding.bParityType f with
        | none => simp [hd, hq] at h
        | some g => simp [hd, hq, hn] at h
  · simp [LineCodingReceived_from_ISR, hg] at h

theorem Control.Inv_init : Control.init.Inv :=
  ⟨by decide, fun _ => rfl⟩

theorem Control.Inv_step (c : Control) (e : ControlEvent) (h : c.Inv) :
    (c.step e).Inv := by
  obtain ⟨hs, hu⟩ := h
  cases e with
  | setup s =>
    refine ⟨hs, fun hf => ?_⟩
    show (CDC_SetupCmd c.statics s).state.cdcLineCoding = c.lastValidated
    rw [CDC_SetupCmd_state]
    exact hu hf
  | data received =>
    simp only [Control.step]
    split_ifs
    · exact ⟨hs, fun hf => by simp at hf⟩
    · exact ⟨hs, hu⟩
  | complete status xferred remaining =>
    simp only [Control.step]
    split_ifs with ha hok
    · refine ⟨?_, fun _ => rfl⟩
      show (LineCodingReceived_from_ISR c.statics status xferred
        remaining).state.cdcLineCoding.Supported
      rw [LineCodingReceived_from_ISR_state]
      exact supported_of_accepted _ _ _ _ hok
    · refine ⟨hs, fun hf => ?_⟩
      show (LineCodingReceived_from_ISR c.statics status xferred
        remaining).state.cdcLineCoding = c.lastValidated
      rw [LineCodingReceived_from_ISR_state]
      exact hu hf
    · exact ⟨hs, hu⟩

theorem Control.Inv_run (events : List ControlEvent) (c : Control) (h : c.Inv) :
    (c.run events).Inv := by
  induction events generalizing c with
  | nil => exact h
  | cons e es ih => exact ih (c.step e) (Control.Inv_step c e h)

/-- C10 (as amended): in every state reached from initialisation by setup
packets, data stages and continuations, the record last validated is a
supported one, and the stored record is that record (the initial one if none
was validated) as long as no data stage has written the store since; a
continuation that returns USB_STATUS_REQ_ERR changes neither the statics nor
the record last validated, so the bytes it rejected stay stored. -/
theorem stored_record_last_validated (events : List ControlEvent) :
    (Control.init.run events).lastValidated.Supported ∧
      ((Control.init.run events).unvalidated = false →
        (Control.init.run events).statics.cdcLineCoding
          = (Control.init.run events).lastValidated) ∧
      (∀ (status : USB_Status_TypeDef) (xferred remaining : Nat),
        (LineCodingReceived_from_ISR (Control.init.run events).statics status xferred
            remaining).retVal = USB_STATUS_REQ_ERR →
          ((Control.init.run events).step
              (ControlEvent.complete status xferred remaining)).statics
            = (Control.init.run events).statics ∧
          ((Control.init.run events).step
              (ControlEvent.complete status xferred remaining)).lastValidated
            = (Control.init.run events).lastValidated) := by
  obtain ⟨hs, hu⟩ := Control.Inv_run events Control.init Control.Inv_init
  refine ⟨hs, hu, ?_⟩
  intro status xferred remaining herr
  have hne : ¬ (LineCodingReceived_from_ISR (Control.init.run events).statics status
      xferred remaining).retVal = USB_STATUS_OK := by
    rw [herr]; decide
  simp only [Control.step]
  split_ifs
  · exact ⟨LineCodingReceived_from_ISR_state _ _ _ _, rfl⟩
  · exact ⟨rfl, rfl⟩

/-- C10 (as amended) after an accepted transfer: the store holds the record
just validated, 9600 baud, 8 data bits, no parity, 1 stop bit. -/
theorem stored_record_last_validated_witness :
    (Control.init.run plainTransfer).unvalidated = false ∧
    (Control.init.run plainTransfer).statics.cdcLineCoding
      = (Control.init.run plainTransfer).lastValidated ∧
    (Control.init.run plainTransfer).lastValidated
      = { dwDTERate := 9600, bCharFormat := 0, bParityType := 0, bDataBits := 8,
          dummy := 0 } :=
  ⟨by decide, (stored_record_last_validated plainTransfer).2.1 (by decide), by decide⟩

/-- C10 fails as stated: from the initial statics, a SET_LINE_CODING whose data
stage carries Mark parity is rejected by the continuation, yet afterwards the
store holds the rejected record and not the one last validated (the initial
one), and GET_LINE_CODING hands the rejected bytes to the host. -/
theorem rejected_record_stays_stored :
    (LineCodingReceived_from_ISR
        (dataStage State.init [0x80, 0x25, 0, 0, 0, 3, 8]) USB_STATUS_OK 7 0).retVal
      = USB_STATUS_REQ_ERR ∧
    (Control.init.run markParityTransfer).lastValidated = State.init.cdcLineCoding ∧
    (Control.init.run markParityTransfer).statics.cdcLineCoding
      = { dwDTERate := 9600, bCharFormat := 0, bParityType := 3, bDataBits := 8,
          dummy := 0 } ∧
    (Control.init.run markParityTransfer).statics.cdcLineCoding
      ≠ (Control.init.run markParityTransfer).lastValidated ∧
    controlInData (Control.init.run markParityTransfer).statics
        (CDC_SetupCmd (Control.init.run markParityTransfer).statics
          getLineCodingSetup).effects
      = [[0x80, 0x25, 0, 0, 0, 3, 8]] := by
  decide

/-! ## The line-coding store and the other entry points -/

/-- The state-change handler never writes the statics. -/
theorem CDC_StateChangeEvent_state (st : State) (oldState newState : USBD_State_TypeDef) :
    (CDC_StateChangeEvent st oldState newState).state = st := by
  unfold CDC_StateChangeEvent
  dsimp only
  split_ifs <;> rfl

/-- The receive callback never writes the statics. -/
theorem UsbDataReceived_from_ISR_state (st : State) (status : USB_Status_TypeDef)
    (rx_count remaining_count : Nat) :
    (UsbDataReceived_from_ISR st status rx_count remaining_count).state = st := by
  unfold UsbDataReceived_from_ISR
  dsimp only
  split_ifs <;> rfl

/-- C11: the line-coding record starts as 115200 baud, bCharFormat 0 (1 stop
bit), bParityType 0 (no parity) and 8 data bits, a record the continuation
accepts; and `CDC_SetupCmd` (for every setup packet), `CDC_StateChangeEvent`,
the receive and the transmit completion callbacks, `CDC_puts` and the
line-coding continuation all leave the stored record as it was, for every
state of the statics and every argument. -/
theorem lineCoding_store_frame (st : State) (setup : USB_Setup_TypeDef)
    (oldState newState : USBD_State_TypeDef) (status : USB_Status_TypeDef)
    (xferred remaining s : Nat) (str : List Nat) :
    State.init.cdcLineCoding
        = { dwDTERate := 115200, bCharFormat := 0, bParityType := 0, bDataBits := 8,
            dummy := 0 } ∧
      (LineCodingReceived_from_ISR State.init USB_STATUS_OK 7 remaining).retVal
        = USB_STATUS_OK ∧
      (CDC_SetupCmd st setup).state.cdcLineCoding = st.cdcLineCoding ∧
      (CDC_StateChangeEvent st oldState newState).state.cdcLineCoding
        = st.cdcLineCoding ∧
      (UsbDataReceived_from_ISR st status xferred remaining).state.cdcLineCoding
        = st.cdcLineCoding ∧
      (UsbDataTransmitted_from_ISR st status xferred remaining).state.cdcLineCoding
        = st.cdcLineCoding ∧
      (CDC_puts st s str).state.cdcLineCoding = st.cdcLineCoding ∧
      (LineCodingReceived_from_ISR st status xferred remaining).state.cdcLineCoding
        = st.cdcLineCoding := by
  refine ⟨rfl, rfl, ?_, ?_, ?_, ?_, rfl, ?_⟩
  · rw [CDC_SetupCmd_state]
  · rw [CDC_StateChangeEvent_state]
  · rw [UsbDataReceived_from_ISR_state]
  · unfold UsbDataTransmitted_from_ISR
    dsimp only
    split_ifs <;> rfl
  · rw [LineCodingReceived_from_ISR_state]

/-! ## The device state tracker and the receive pump -/

/-- C12: when the new state is Configured, `CDC_StateChangeEvent` logs the two
states and arms exactly one transfer, a read on the bulk-OUT endpoint into the
receive buffer with `UsbDataReceived_from_ISR` as completion callback, for
every old state; for every other new state it only logs, arms no transfer; in
both cases the statics are unchanged. -/
theorem stateChange_arms_receive (st : State) (oldState newState : USBD_State_TypeDef) :
    (newState = USBD_STATE_CONFIGURED →
      CDC_StateChangeEvent st oldState newState
          = ⟨(), st, [Effect.SEGGER_RTT_printf 0 oldState newState,
              Effect.USBD_Read CDC_EP_DATA_OUT BufferRef._rx_buffer CDC_USB_RX_BUF_SIZ
                USB_XferCompleteCb_TypeDef.UsbDataReceived_from_ISR]⟩ ∧
        transfers (CDC_StateChangeEvent st oldState newState).effects
          = [Effect.USBD_Read CDC_EP_DATA_OUT BufferRef._rx_buffer CDC_USB_RX_BUF_SIZ
              USB_XferCompleteCb_TypeDef.UsbDataReceived_from_ISR]) ∧
    (newState ≠ USBD_STATE_CONFIGURED →
      CDC_StateChangeEvent st oldState newState
          = ⟨(), st, [Effect.SEGGER_RTT_printf 0 oldState newState]⟩ ∧
        transfers (CDC_StateChangeEvent st oldState newState).effects = []) := by
  constructor
  · intro h
    subst h
    simp [CDC_StateChangeEvent, transfers]
  · intro h
    have hc : CDC_StateChangeEvent st oldState newState
        = ⟨(), st, [Effect.SEGGER_RTT_printf 0 oldState newState]⟩ := by
      unfold CDC_StateChangeEvent
      dsimp only
      rw [if_neg h]
      split_ifs <;> rfl
    rw [hc]
    exact ⟨rfl, rfl⟩

/-- C12 at a resume (Suspended to Configured), a de-configuration (Configured
to Addressed) and a suspension (Configured to Suspended). -/
theorem stateChange_arms_receive_witness :
    transfers (CDC_StateChangeEvent State.init USBD_STATE_SUSPENDED
        USBD_STATE_CONFIGURED).effects
      = [Effect.USBD_Read 0x01 BufferRef._rx_buffer 64
          USB_XferCompleteCb_TypeDef.UsbDataReceived_from_ISR] ∧
    transfers (CDC_StateChangeEvent State.init USBD_STATE_CONFIGURED
        USBD_State_TypeDef.USBD_STATE_ADDRESSED).effects = [] ∧
    transfers (CDC_StateChangeEvent State.init USBD_STATE_CONFIGURED
        USBD_STATE_SUSPENDED).effects = [] :=
  ⟨((stateChange_arms_receive State.init USBD_STATE_SUSPENDED
      USBD_STATE_CONFIGURED).1 rfl).2,
   ((stateChange_arms_receive State.init USBD_STATE_CONFIGURED
      USBD_State_TypeDef.USBD_STATE_ADDRESSED).2 (by decide)).2,
   ((stateChange_arms_receive State.init USBD_STATE_CONFIGURED
      USBD_STATE_SUSPENDED).2 (by decide)).2⟩

/-- C13: for a receive buffer of its declared capacity and every `n` with
0 < n ≤ capacity, the receive callback called with (OK, n) makes exactly two
calls, in this order: it hands the first `n` bytes of the receive buffer, in
their order, to the RTT sink, then arms one read on the bulk-OUT endpoint of
the full capacity with itself as callback; it returns USB_STATUS_OK and leaves
the statics unchanged. -/
theorem received_delivers_then_rearms (st : State) (n remaining_count : Nat)
    (hcap : st._rx_buffer.length = CDC_USB_RX_BUF_SIZ)
    (hpos : 0 < n) (hle : n ≤ CDC_USB_RX_BUF_SIZ) :
    UsbDataReceived_from_ISR st USB_STATUS_OK n remaining_count
        = ⟨USB_STATUS_OK, st,
            [Effect.SEGGER_RTT_Write 0 (st._rx_buffer.take n) n,
             Effect.USBD_Read CDC_EP_DATA_OUT BufferRef._rx_buffer CDC_USB_RX_BUF_SIZ
               USB_XferCompleteCb_TypeDef.UsbDataReceived_from_ISR]⟩ ∧
      (st._rx_buffer.take n).length = n ∧
      (∀ i, i < n → (st._rx_buffer.take n)[i]? = st._rx_buffer[i]?) ∧
      transfers (UsbDataReceived_from_ISR st USB_STATUS_OK n remaining_count).effects
        = [Effect.USBD_Read CDC_EP_DATA_OUT BufferRef._rx_buffer st._rx_buffer.length
            USB_XferCompleteCb_TypeDef.UsbDataReceived_from_ISR] := by
  have hc : UsbDataReceived_from_ISR st USB_STATUS_OK n remaining_count
      = ⟨USB_STATUS_OK, st,
          [Effect.SEGGER_RTT_Write 0 (st._rx_buffer.take n) n,
           Effect.USBD_Read CDC_EP_DATA_OUT BufferRef._rx_buffer CDC_USB_RX_BUF_SIZ
             USB_XferCompleteCb_TypeDef.UsbDataReceived_from_ISR]⟩ := by
    simp [UsbDataReceived_from_ISR, hpos]
  refine ⟨hc, ?_, ?_, ?_⟩
  · rw [List.length_take, hcap]
    exact Nat.min_eq_left hle
  · intro i hi
    rw [List.getElem?_take, if_pos hi]
  · rw [hc, hcap]
    rfl

/-- C13 at a buffer holding 1, 2, 3 followed by zeros, 3 bytes received. -/
theorem received_delivers_then_rearms_witness :
    UsbDataReceived_from_ISR
        { State.init with _rx_buffer := [1, 2, 3] ++ List.replicate 61 0 }
        USB_STATUS_OK 3 0
      = ⟨USB_STATUS_OK,
          { State.init with _rx_buffer := [1, 2, 3] ++ List.replicate 61 0 },
          [Effect.SEGGER_RTT_Write 0 [1, 2, 3] 3,
           Effect.USBD_Read 0x01 BufferRef._rx_buffer 64
             USB_XferCompleteCb_TypeDef.UsbDataReceived_from_ISR]⟩ :=
  (received_delivers_then_rearms
    { State.init with _rx_buffer := [1, 2, 3] ++ List.replicate 61 0 } 3 0
    (by decide) (by decide) (by decide)).1

/-- C14: when the status is not USB_STATUS_OK or the byte count is 0, the
receive callback makes no call at all (nothing reaches the sink, no receive
transfer is armed), leaves the statics unchanged and returns USB_STATUS_OK;
the device state is no argument of it. -/
theorem received_idle_on_failure (st : State) (status : USB_Status_TypeDef)
    (rx_count remaining_count : Nat)
    (h : status ≠ USB_STATUS_OK ∨ rx_count = 0) :
    UsbDataReceived_from_ISR st status rx_count remaining_count
      = ⟨USB_STATUS_OK, st, []⟩ := by
  have hc : ¬ (status = USB_STATUS_OK ∧ rx_count > 0) := by
    rintro ⟨h1, h2⟩
    rcases h with h | h
    · exact h h1
    · omega
  simp [UsbDataReceived_from_ISR, hc]

/-- C14 at an aborted transfer, and at an OK completion of 0 bytes. -/
theorem received_idle_on_failure_witness :
    UsbDataReceived_from_ISR State.init USB_Status_TypeDef.USB_STATUS_EP_ABORTED 12 52
      = ⟨USB_STATUS_OK, State.init, []⟩ ∧
    UsbDataReceived_from_ISR State.init USB_STATUS_OK 0 64
      = ⟨USB_STATUS_OK, State.init, []⟩ :=
  ⟨received_idle_on_failure State.init _ 12 52 (Or.inl (by decide)),
   received_idle_on_failure State.init _ 0 64 (Or.inr rfl)⟩

/-- C15, the code at its failing input: after the device was configured (a
receive transfer armed) and then de-configured, a late completion with status
OK and 5 bytes arms a new receive transfer, the device not being in the
Configured state before or after; the claim asks that no transfer be armed
there. The state-change handler arms its read under the test
`newState == USBD_STATE_CONFIGURED`; the receive callback re-arms without
any such test. -/
theorem late_completion_rearms :
    (Device.init.run deconfigured).rxArmed = true ∧
    (Device.init.run deconfigured).usbState ≠ USBD_STATE_CONFIGURED ∧
    ((Device.init.run deconfigured).step
        (DeviceEvent.received USB_STATUS_OK 5 59)).usbState
      ≠ USBD_STATE_CONFIGURED ∧
    transfers ((Device.init.run deconfigured).call
        (DeviceEvent.received USB_STATUS_OK 5 59)).effects
      = [Effect.USBD_Read CDC_EP_DATA_OUT BufferRef._rx_buffer CDC_USB_RX_BUF_SIZ
          USB_XferCompleteCb_TypeDef.UsbDataReceived_from_ISR] ∧
    ((Device.init.run deconfigured).step
        (DeviceEvent.received USB_STATUS_OK 5 59)).rxArmed = true := by
  decide

/-! ## The transmit pump -/

/-- C17: a transmit completion with a status other than USB_STATUS_OK, for
every byte count and every state of the statics, makes no call (no further
write, no retry), leaves the transmit pointer and the remaining count as they
were and returns USB_STATUS_OK. -/
theorem transmitted_halts_on_failure (st : State) (status : USB_Status_TypeDef)
    (xferred remaining : Nat) (h : status ≠ USB_STATUS_OK) :
    UsbDataTransmitted_from_ISR st status xferred remaining
        = ⟨USB_STATUS_OK, st, []⟩ ∧
      (UsbDataTransmitted_from_ISR st status xferred remaining).state._tx_buffer_ptr
        = st._tx_buffer_ptr ∧
      (UsbDataTransmitted_from_ISR st status xferred remaining).state._bytes_to_send
        = st._bytes_to_send := by
  have hc : UsbDataTransmitted_from_ISR st status xferred remaining
      = ⟨USB_STATUS_OK, st, []⟩ := by
    simp [UsbDataTransmitted_from_ISR, h]
  rw [hc]
  exact ⟨rfl, rfl, rfl⟩

/-- C17 in the middle of a send: 236 bytes remaining, the completion reports a
stalled endpoint after 10 bytes. -/
theorem transmitted_halts_on_failure_witness :
    UsbDataTransmitted_from_ISR
        { State.init with _tx_buffer_ptr := 0x20000040, _bytes_to_send := 236 }
        USB_Status_TypeDef.USB_STATUS_EP_STALLED 10 226
      = ⟨USB_STATUS_OK,
          { State.init with _tx_buffer_ptr := 0x20000040, _bytes_to_send := 236 }, []⟩ :=
  (transmitted_halts_on_failure _ _ 10 226 (by decide)).1

/-- An OK completion of no more bytes than remain: the count goes down and the
pointer up by `xferred`, and one write asks for all that remains. -/
theorem UsbDataTransmitted_from_ISR_ok (st : State) (xferred remaining : Nat)
    (hb : st._bytes_to_send < 4294967296) (hx : xferred ≤ st._bytes_to_send) :
    UsbDataTransmitted_from_ISR st USB_STATUS_OK xferred remaining
      = ⟨USB_STATUS_OK,
          { st with _bytes_to_send := st._bytes_to_send - xferred,
                    _tx_buffer_ptr := st._tx_buffer_ptr + xferred },
          [Effect.USBD_Write CDC_EP_DATA_IN (BufferRef.addr (st._tx_buffer_ptr + xferred))
            (st._bytes_to_send - xferred)
            USB_XferCompleteCb_TypeDef.UsbDataTransmitted_from_ISR]⟩ := by
  have e : (st._bytes_to_send + 4294967296 - xferred % 4294967296) % 4294967296
      = st._bytes_to_send - xferred := by omega
  simp only [UsbDataTransmitted_from_ISR, if_true, e]

/-- The length of a string as `CDC_puts` stores it. -/
theorem CDC_puts_eq (st : State) (s : Nat) (str : List Nat)
    (hL : strlen str < 4294967296) :
    CDC_puts st s str
      = ⟨(), { st with _bytes_to_send := strlen str, _tx_buffer_ptr := s },
          [Effect.USBD_Write CDC_EP_DATA_IN (BufferRef.addr s) (strlen str)
            USB_XferCompleteCb_TypeDef.UsbDataTransmitted_from_ISR]⟩ := by
  simp only [CDC_puts, Nat.mod_eq_of_lt hL]

/-- A chain of OK completions that never exceed what remains follows the chain
of writes of the spec. -/
theorem transmitCompletions_ok (xs : List Nat) :
    ∀ st : State, st._bytes_to_send < 4294967296 → xs.sum ≤ st._bytes_to_send →
      transmitCompletions st (okCompletions xs)
        = ({ st with _bytes_to_send := st._bytes_to_send - xs.sum,
                     _tx_buffer_ptr := st._tx_buffer_ptr + xs.sum },
           chainedWrites st._tx_buffer_ptr st._bytes_to_send xs) := by
  induction xs with
  | nil => intro st _ _; rfl
  | cons x xs ih =>
    intro st hb hsum
    rw [List.sum_cons] at hsum
    have hx : x ≤ st._bytes_to_send := by omega
    have hstep := UsbDataTransmitted_from_ISR_ok st x 0 hb hx
    have hrec := ih
      { st with _bytes_to_send := st._bytes_to_send - x,
                _tx_buffer_ptr := st._tx_buffer_ptr + x }
      (by show st._bytes_to_send - x < 4294967296; omega)
      (by show xs.sum ≤ st._bytes_to_send - x; omega)
    show ((transmitCompletions
        (UsbDataTransmitted_from_ISR st USB_STATUS_OK x 0).state (okCompletions xs)).1,
      (UsbDataTransmitted_from_ISR st USB_STATUS_OK x 0).effects
        ++ (transmitCompletions
          (UsbDataTransmitted_from_ISR st USB_STATUS_OK x 0).state (okCompletions xs)).2)
      = _
    rw [hstep]
    dsimp only
    rw [hrec]
    simp only [List.sum_cons, chainedWrites, List.singleton_append, Nat.sub_sub,
      Nat.add_assoc]

/-- No write of the chain asks for more than was remaining at its start. -/
theorem chainedWrites_byteCount_le (xs : List Nat) :
    ∀ p b : Nat, ∀ e ∈ chainedWrites p b xs, e.byteCount ≤ b := by
  induction xs with
  | nil => intro p b e he; simp [chainedWrites] at he
  | cons x xs ih =>
    intro p b e he
    simp only [chainedWrites, List.mem_cons] at he
    rcases he with he | he
    · subst he
      show b - x ≤ b
      omega
    · have := ih (p + x) (b - x) e he
      omega

/-- The string of 300 letters is 300 bytes long. -/
theorem strlen_string300 : strlen string300 = 300 := by
  have h : ∀ n : Nat, strlen (List.replicate n 65 ++ [0]) = n := by
    intro n
    induction n with
    | zero => rfl
    | succ n ih =>
      simp only [strlen] at ih
      simp [strlen, List.replicate_succ, List.takeWhile_cons, ih]
  exact h 300

/-- C16 (as amended): `CDC_puts` on a string of `L` bytes issues one bulk-IN
write of all `L` bytes from the start of the string, whatever `L` is: the
driver applies no maximum transfer size. When OK completions report fewer
bytes than remain, each is followed by one write that starts at the offset
where the completed bytes ended and asks for all the bytes that remain; every
write asks for at most `L` bytes, and the bytes completed plus the remaining
count make `L`. -/
theorem puts_chains_whole_remainder (st : State) (s : Nat) (str : List Nat)
    (xs : List Nat) (hL : strlen str < 4294967296) (hsum : xs.sum < strlen str) :
    (CDC_puts st s str).effects
        = [Effect.USBD_Write CDC_EP_DATA_IN (BufferRef.addr s) (strlen str)
            USB_XferCompleteCb_TypeDef.UsbDataTransmitted_from_ISR] ∧
      (transmitCompletions (CDC_puts st s str).state (okCompletions xs)).2
        = chainedWrites s (strlen str) xs ∧
      (transmitCompletions (CDC_puts st s str).state (okCompletions xs)).2.length
        = xs.length ∧
      (∀ e ∈ (CDC_puts st s str).effects
          ++ (transmitCompletions (CDC_puts st s str).state (okCompletions xs)).2,
        e.byteCount ≤ strlen str) ∧
      xs.sum + (transmitCompletions (CDC_puts st s str).state
          (okCompletions xs)).1._bytes_to_send = strlen str ∧
      (transmitCompletions (CDC_puts st s str).state
          (okCompletions xs)).1._tx_buffer_ptr = s + xs.sum := by
  have hp := CDC_puts_eq st s str hL
  have ht := transmitCompletions_ok xs
    { st with _bytes_to_send := strlen str, _tx_buffer_ptr := s } hL (Nat.le_of_lt hsum)
  rw [hp]
  dsimp only at ht ⊢
  rw [ht]
  refine ⟨rfl, rfl, ?_, ?_, ?_, rfl⟩
  · show (chainedWrites s (strlen str) xs).length = xs.length
    clear ht hp hsum
    generalize strlen str = b
    induction xs generalizing s b with
    | nil => rfl
    | cons x xs ih => simp [chainedWrites, ih]
  · intro e he
    simp only [List.mem_append, List.mem_singleton] at he
    rcases he with he | he
    · subst he
      exact Nat.le_refl _
    · exact chainedWrites_byteCount_le xs s (strlen str) e he
  · show xs.sum + (strlen str - xs.sum) = strlen str
    omega

/-- C16 (as amended) on 300 bytes at address 0x20000000, the stack completing
64 bytes at a time: after the first write of 300 bytes, the four completions
are followed by writes of 236, 172, 108 and 44 bytes at the offsets 64, 128,
192 and 256. -/
theorem puts_chains_whole_remainder_witness :
    (CDC_puts State.init 0x20000000 string300).effects
      = [Effect.USBD_Write CDC_EP_DATA_IN (BufferRef.addr 0x20000000)
          (strlen string300) USB_XferCompleteCb_TypeDef.UsbDataTransmitted_from_ISR] ∧
    (transmitCompletions (CDC_puts State.init 0x20000000 string300).state
        (okCompletions [64, 64, 64, 64])).2
      = chainedWrites 0x20000000 (strlen string300) [64, 64, 64, 64] ∧
    chainedWrites 0x20000000 300 [64, 64, 64, 64]
      = [Effect.USBD_Write 0x81 (BufferRef.addr 0x20000040) 236
          USB_XferCompleteCb_TypeDef.UsbDataTransmitted_from_ISR,
         Effect.USBD_Write 0x81 (BufferRef.addr 0x20000080) 172
          USB_XferCompleteCb_TypeDef.UsbDataTransmitted_from_ISR,
         Effect.USBD_Write 0x81 (BufferRef.addr 0x200000C0) 108
          USB_XferCompleteCb_TypeDef.UsbDataTransmitted_from_ISR,
         Effect.USBD_Write 0x81 (BufferRef.addr 0x20000100) 44
          USB_XferCompleteCb_TypeDef.UsbDataTransmitted_from_ISR] :=
  have h := puts_chains_whole_remainder State.init 0x20000000 string300 [64, 64, 64, 64]
    (by rw [strlen_string300]; decide) (by rw [strlen_string300]; decide)
  ⟨h.1, h.2.1, by decide⟩

/-- C16 fails as stated: `CDC_puts` on a string of 300 bytes issues a single
write of 300 bytes, more than the 64 of one packet; and when every write is
completed in full with status OK, the writes ask for 300, 0, 0, 0, 0 bytes, not
64, 64, 64, 64, 44. -/
theorem puts_does_not_split :
    (CDC_puts State.init 0x20000000 string300).effects
      = [Effect.USBD_Write CDC_EP_DATA_IN (BufferRef.addr 0x20000000) 300
          USB_XferCompleteCb_TypeDef.UsbDataTransmitted_from_ISR] ∧
    ¬ (300 ≤ USB_FS_BULK_EP_MAXSIZE) ∧
    ((CDC_puts State.init 0x20000000 string300).effects
        ++ completedInFull 4 (CDC_puts State.init 0x20000000 string300).state 300).map
        Effect.byteCount
      = [300, 0, 0, 0, 0] ∧
    ((CDC_puts State.init 0x20000000 string300).effects
        ++ completedInFull 4 (CDC_puts State.init 0x20000000 string300).state 300).map
        Effect.byteCount
      ≠ [64, 64, 64, 64, 44] := by
  have hp : CDC_puts State.init 0x20000000 string300
      = ⟨(), { State.init with _bytes_to_send := 300, _tx_buffer_ptr := 0x20000000 },
          [Effect.USBD_Write CDC_EP_DATA_IN (BufferRef.addr 0x20000000) 300
            USB_XferCompleteCb_TypeDef.UsbDataTransmitted_from_ISR]⟩ := by
    have h := CDC_puts_eq State.init 0x20000000 string300
      (by rw [strlen_string300]; decide)
    rw [strlen_string300] at h
    exact h
  rw [hp]
  decide

/-- C18, the code at its failing input: every OK completion is followed by one
more bulk-IN write, whatever remains; after `CDC_puts` on the one-byte string
"A" (and on the empty string) the completion in full brings the remaining
count to 0 and still issues a write, of 0 bytes, and so does each completion
of that write: completing every write in full, `k` completions give `k`
further writes, for every `k`. -/
theorem transmitted_rearms_at_zero (st : State) (xferred remaining pending k : Nat) :
    (∃ p n, (UsbDataTransmitted_from_ISR st USB_STATUS_OK xferred remaining).effects
        = [Effect.USBD_Write CDC_EP_DATA_IN (BufferRef.addr p) n
            USB_XferCompleteCb_TypeDef.UsbDataTransmitted_from_ISR]) ∧
      (completedInFull k st pending).length = k ∧
      UsbDataTransmitted_from_ISR (CDC_puts State.init 0x20000000 [65, 0]).state
          USB_STATUS_OK 1 0
        = ⟨USB_STATUS_OK,
            { State.init with _bytes_to_send := 0, _tx_buffer_ptr := 0x20000001 },
            [Effect.USBD_Write CDC_EP_DATA_IN (BufferRef.addr 0x20000001) 0
              USB_XferCompleteCb_TypeDef.UsbDataTransmitted_from_ISR]⟩ ∧
      UsbDataTransmitted_from_ISR (CDC_puts State.init 0x20000000 [0]).state
          USB_STATUS_OK 0 0
        = ⟨USB_STATUS_OK,
            { State.init with _bytes_to_send := 0, _tx_buffer_ptr := 0x20000000 },
            [Effect.USBD_Write CDC_EP_DATA_IN (BufferRef.addr 0x20000000) 0
              USB_XferCompleteCb_TypeDef.UsbDataTransmitted_from_ISR]⟩ ∧
      (completedInFull 4 (CDC_puts State.init 0x20000000 [65, 0]).state 1).map
          Effect.byteCount
        = [0, 0, 0, 0] := by
  refine ⟨?_, ?_, by decide, by decide, by decide⟩
  · exact ⟨st._tx_buffer_ptr + xferred,
      (st._bytes_to_send + 4294967296 - xferred % 4294967296) % 4294967296,
      by simp only [UsbDataTransmitted_from_ISR, if_true]⟩
  · induction k generalizing st pending with
    | zero => rfl
    | succ k ih =>
      simp only [completedInFull, UsbDataTransmitted_from_ISR, if_true, List.length_cons,
        ih]

/-- C19: `CDC_puts` on a string of `strlen` below 2^32 at address `s` sets the
pointer to `s` and the remaining count to the length, and issues one bulk-IN
write of that count from `s`. An OK completion with `xferred` at most the
remaining count advances the pointer by `xferred` and lowers the count by
exactly `xferred`: pointer plus count is preserved, the count does not grow,
and the write that follows starts at the new pointer with the new count. The
subtraction is on 32 bits: an `xferred` above the remaining count leaves the
count plus 2^32 minus `xferred`. -/
theorem transmit_cursor_arithmetic (st : State) (s : Nat) (str : List Nat)
    (xferred remaining : Nat)
    (hL : strlen str < 4294967296) (hb : st._bytes_to_send < 4294967296)
    (hx : xferred < 4294967296) :
    CDC_puts st s str
        = ⟨(), { st with _bytes_to_send := strlen str, _tx_buffer_ptr := s },
            [Effect.USBD_Write CDC_EP_DATA_IN (BufferRef.addr s) (strlen str)
              USB_XferCompleteCb_TypeDef.UsbDataTransmitted_from_ISR]⟩ ∧
      (xferred ≤ st._bytes_to_send →
        (UsbDataTransmitted_from_ISR st USB_STATUS_OK xferred remaining).state._tx_buffer_ptr
            = st._tx_buffer_ptr + xferred ∧
          (UsbDataTransmitted_from_ISR st USB_STATUS_OK xferred
              remaining).state._bytes_to_send + xferred = st._bytes_to_send ∧
          (UsbDataTransmitted_from_ISR st USB_STATUS_OK xferred remaining).state._tx_buffer_ptr
              + (UsbDataTransmitted_from_ISR st USB_STATUS_OK xferred
                remaining).state._bytes_to_send
            = st._tx_buffer_ptr + st._bytes_to_send ∧
          (UsbDataTransmitted_from_ISR st USB_STATUS_OK xferred
              remaining).state._bytes_to_send ≤ st._bytes_to_send ∧
          (UsbDataTransmitted_from_ISR st USB_STATUS_OK xferred remaining).effects
            = [Effect.USBD_Write CDC_EP_DATA_IN
                (BufferRef.addr (UsbDataTransmitted_from_ISR st USB_STATUS_OK xferred
                  remaining).state._tx_buffer_ptr)
                (UsbDataTransmitted_from_ISR st USB_STATUS_OK xferred
                  remaining).state._bytes_to_send
                USB_XferCompleteCb_TypeDef.UsbDataTransmitted_from_ISR]) ∧
      (st._bytes_to_send < xferred →
        (UsbDataTransmitted_from_ISR st USB_STATUS_OK xferred
            remaining).state._bytes_to_send
          = st._bytes_to_send + 4294967296 - xferred) := by
  refine ⟨CDC_puts_eq st s str hL, ?_, ?_⟩
  · intro hle
    rw [UsbDataTransmitted_from_ISR_ok st xferred remaining hb hle]
    dsimp only
    refine ⟨rfl, ?_, ?_, ?_, rfl⟩ <;> omega
  · intro hlt
    simp only [UsbDataTransmitted_from_ISR, if_true]
    omega

/-- C19 on the string "AB" sent from address 0x20000000, then a cursor with 2
bytes remaining: a completion of 1 byte leaves 1 byte at 0x20000001, and a
completion of 3 bytes wraps the count to 2^32 - 1. -/
theorem transmit_cursor_arithmetic_witness :
    (CDC_puts State.init 0x20000000 [65, 66, 0]).effects
      = [Effect.USBD_Write 0x81 (BufferRef.addr 0x20000000) 2
          USB_XferCompleteCb_TypeDef.UsbDataTransmitted_from_ISR] ∧
    (UsbDataTransmitted_from_ISR
        { State.init with _bytes_to_send := 2, _tx_buffer_ptr := 0x20000000 }
        USB_STATUS_OK 1 1).effects
      = [Effect.USBD_Write 0x81 (BufferRef.addr 0x20000001) 1
          USB_XferCompleteCb_TypeDef.UsbDataTransmitted_from_ISR] ∧
    (UsbDataTransmitted_from_ISR
        { State.init with _bytes_to_send := 2, _tx_buffer_ptr := 0x20000000 }
        USB_STATUS_OK 3 0).state._bytes_to_send = 4294967295 :=
  ⟨congrArg Outcome.effects
      (transmit_cursor_arithmetic State.init 0x20000000 [65, 66, 0] 0 0
        (by decide) (by decide) (by decide)).1,
   ((transmit_cursor_arithmetic
      { State.init with _bytes_to_send := 2, _tx_buffer_ptr := 0x20000000 } 0 [] 1 1
      (by decide) (by decide) (by decide)).2.1 (by decide)).2.2.2.2,
   (transmit_cursor_arithmetic
      { State.init with _bytes_to_send := 2, _tx_buffer_ptr := 0x20000000 } 0 [] 3 0
      (by decide) (by decide) (by decide)).2.2 (by decide)⟩

/-! ## The size of the receive transfer -/

/-- C20 (as amended): the receive transfer armed on entering the Configured
state asks for exactly the capacity of the receive buffer, which is the
maximum packet size of the bulk endpoint; no byte is kept back, and a transfer
completed with that many bytes fills the whole buffer, its last byte
included. -/
theorem configured_read_full_capacity (st : State) (oldState : USBD_State_TypeDef)
    (received : List Nat)
    (hcap : st._rx_buffer.length = CDC_USB_RX_BUF_SIZ)
    (hlen : received.length = CDC_USB_RX_BUF_SIZ) :
    transfers (CDC_StateChangeEvent st oldState USBD_STATE_CONFIGURED).effects
        = [Effect.USBD_Read CDC_EP_DATA_OUT BufferRef._rx_buffer st._rx_buffer.length
            USB_XferCompleteCb_TypeDef.UsbDataReceived_from_ISR] ∧
      st._rx_buffer.length = USB_FS_BULK_EP_MAXSIZE ∧
      (bulkOutStage st CDC_USB_RX_BUF_SIZ received)._rx_buffer = received ∧
      (bulkOutStage st CDC_USB_RX_BUF_SIZ received)._rx_buffer.getLast?
        = received.getLast? := by
  have hstore : (bulkOutStage st CDC_USB_RX_BUF_SIZ received)._rx_buffer = received := by
    simp only [bulkOutStage]
    rw [← hlen, List.take_length, hlen, ← hcap, List.drop_length, List.append_nil]
  refine ⟨?_, hcap, hstore, by rw [hstore]⟩
  rw [hcap]
  simp [CDC_StateChangeEvent, transfers]

/-- C20 (as amended) at the initial statics, 64 bytes 0xFF received: the read
asks for 64 bytes and the last byte of the buffer is written. -/
theorem configured_read_full_capacity_witness :
    transfers (CDC_StateChangeEvent State.init USBD_State_TypeDef.USBD_STATE_ADDRESSED
        USBD_STATE_CONFIGURED).effects
      = [Effect.USBD_Read CDC_EP_DATA_OUT BufferRef._rx_buffer
          State.init._rx_buffer.length
          USB_XferCompleteCb_TypeDef.UsbDataReceived_from_ISR] ∧
    (bulkOutStage State.init CDC_USB_RX_BUF_SIZ (List.replicate 64 0xFF))._rx_buffer
      = List.replicate 64 0xFF :=
  have h := configured_read_full_capacity State.init
    USBD_State_TypeDef.USBD_STATE_ADDRESSED (List.replicate 64 0xFF)
    (by decide) (by decide)
  ⟨h.1, h.2.2.1⟩

/-- C20 fails as stated: on entering the Configured state the read asks for 64
bytes, the whole capacity of the 64-byte receive buffer and not one byte
fewer, and a transfer of 64 bytes writes the last byte of the buffer. -/
theorem configured_read_not_one_less :
    transfers (CDC_StateChangeEvent State.init USBD_State_TypeDef.USBD_STATE_ADDRESSED
        USBD_STATE_CONFIGURED).effects
      = [Effect.USBD_Read 0x01 BufferRef._rx_buffer 64
          USB_XferCompleteCb_TypeDef.UsbDataReceived_from_ISR] ∧
    State.init._rx_buffer.length = 64 ∧
    (transfers (CDC_StateChangeEvent State.init USBD_State_TypeDef.USBD_STATE_ADDRESSED
        USBD_STATE_CONFIGURED).effects).map Effect.byteCount
      ≠ [State.init._rx_buffer.length - 1] ∧
    State.init._rx_buffer.getLast? = some 0 ∧
    (bulkOutStage State.init 64 (List.replicate 64 0xFF))._rx_buffer.getLast?
      = some 0xFF := by
  decide

end CDC
